import Mathlib

/-!
Verification development for the Docklett compiler front end (Go sources:
scanner, token model, recursive-descent parser, AST, tree-walking
interpreter with a scope-chain environment).  Each Go function named in a
doc comment below is embedded as a Lean definition; machine floats
(float64) are modelled by the rationals, which is sound for every property
proved here because no proof depends on rounding, and the source tests
divisors against exact zero before dividing.
-/

namespace Docklett

/-- TokenType from src/compiler/token/token.go: the closed enumeration of
token kinds (identifiers/literals, operators, delimiters, keywords, the
raw Dockerfile line kind DLINE, NLINE, EOF and ILLEGAL). -/
inductive TokenType
  | IDENTIFIER | STRING | NUMBER | BOOL
  | EQUAL | ASSIGN | UNEQUAL
  | ADD | ADD_ASSIGN | SUBTRACT | SUB_ASSIGN
  | MULTI | MULTI_ASSIGN | DIVIDE | DIV_ASSIGN
  | NEGATE | AND | OR
  | GREATER | LESS | GTE | LTE
  | LPAREN | RPAREN | LBRACE | RBRACE | LBRACKET | RBRACKET
  | COLON | COMMA | NLINE
  | SET | IF | ELIF | ELSE | FOR | IN | END | TRUE | FALSE
  | DLINE
  | EOF | ILLEGAL
deriving DecidableEq, Repr

/-- Runtime values flowing through the interpreter (the Go code stores
them in `any`): int, float64 (modelled as a rational), string, bool, and
the untyped nil.  Mirrors the cases of isTruthy / toFloat in
interpreter/expression.go. -/
inductive Value
  | int (n : Int)
  | float (q : ℚ)
  | str (s : String)
  | bool (b : Bool)
  | nil
deriving DecidableEq, Repr

/-- Token from src/compiler/token/token.go: kind, lexeme, position
(line, file, column) and the optional literal payload (`Literal any`,
with Go nil modelled as Value.nil). -/
structure Token where
  type : TokenType
  lexeme : String
  line : Nat
  file : String
  col : Nat
  literal : Value
deriving DecidableEq, Repr

/-- DocklettTokenKeywords from token.go: the DSL keyword table, mapping
exact (case-sensitive) spellings to their keyword token types. -/
def docklettKeywordLookup (s : String) : Option TokenType :=
  if s = "SET" then some .SET
  else if s = "IF" then some .IF
  else if s = "ELIF" then some .ELIF
  else if s = "ELSE" then some .ELSE
  else if s = "FOR" then some .FOR
  else if s = "IN" then some .IN
  else if s = "END" then some .END
  else if s = "TRUE" then some .TRUE
  else if s = "FALSE" then some .FALSE
  else none

/-- Membership in DocklettTokenKeywords (used by Parser.synchronize). -/
def isDocklettKeyword (s : String) : Bool :=
  (docklettKeywordLookup s).isSome

/-- DockerTokenKeywords from token.go: every key maps to DLINE, so only
membership matters.  Keys are the upper-case Dockerfile verbs. -/
def isDockerKeyword (s : String) : Bool :=
  s = "ADD" || s = "ARG" || s = "CMD" || s = "COPY" || s = "ENTRYPOINT" ||
  s = "ENV" || s = "EXPOSE" || s = "FROM" || s = "HEALTHCHECK" ||
  s = "LABEL" || s = "MAINTAINER" || s = "ONBUILD" || s = "RUN" ||
  s = "SHELL" || s = "STOPSIGNAL" || s = "USER" || s = "VOLUME" ||
  s = "WORKDIR"

/-- Go type names as printed by the %T format verb, used in the
interpreter error messages. -/
def typeName : Value → String
  | .int _ => "int"
  | .float _ => "float64"
  | .str _ => "string"
  | .bool _ => "bool"
  | .nil => "<nil>"

/-- Runtime errors raised by the interpreter, one constructor per
NewInterpreterError / PanicRuntimeError site in interpreter/expression.go
and interpreter/environment.go (positions attached to the Go errors are
not needed by any claim and are omitted). -/
inductive Rte
  | divisionByZero
  | nilOnlyEquality
  | mismatchedTypes (lt rt : String)
  | invalidStringOp (op : TokenType)
  | unrecognizedNumericOp (op : TokenType)
  | negateRequiresBool (rt : String)
  | subtractRequiresNumber (rt : String)
  | unknownUnaryOp (lexeme : String)
  | panicUndefinedVar (name : String)
deriving DecidableEq, Repr

/-- isTruthy from interpreter/expression.go: bool as-is, nil false,
numeric zero false, empty string false, everything else true. -/
def isTruthy : Value → Bool
  | .bool b => b
  | .nil => false
  | .int n => n != 0
  | .float q => q != 0
  | .str s => s != ""

/-- toFloat from interpreter/expression.go: int and float64 convert to
float64, every other type is an error (modelled as none). -/
def toFloat : Value → Option ℚ
  | .int n => some (n : ℚ)
  | .float q => some q
  | _ => none

/-- executeNumeric from interpreter/expression.go: the numeric operator
set on promoted float64 operands; division by a zero divisor is a runtime
error *before* any division happens. -/
def executeNumeric (l r : ℚ) (op : TokenType) : Except Rte Value :=
  match op with
  | .ADD => .ok (.float (l + r))
  | .SUBTRACT => .ok (.float (l - r))
  | .MULTI => .ok (.float (l * r))
  | .DIVIDE => if r = 0 then .error .divisionByZero else .ok (.float (l / r))
  | .EQUAL => .ok (.bool (decide (l = r)))
  | .UNEQUAL => .ok (.bool (decide (l ≠ r)))
  | .GREATER => .ok (.bool (decide (r < l)))
  | .GTE => .ok (.bool (decide (r ≤ l)))
  | .LESS => .ok (.bool (decide (l < r)))
  | .LTE => .ok (.bool (decide (l ≤ r)))
  | _ => .error (.unrecognizedNumericOp op)

/-- executeString from interpreter/expression.go: concatenation, value
equality and lexicographic order; GTE/LTE are *not* in the switch and fall
to the invalid-string-operator error. -/
def executeString (l r : String) (op : TokenType) : Except Rte Value :=
  match op with
  | .ADD => .ok (.str (l ++ r))
  | .EQUAL => .ok (.bool (decide (l = r)))
  | .UNEQUAL => .ok (.bool (decide (l ≠ r)))
  | .GREATER => .ok (.bool (decide (r < l)))
  | .LESS => .ok (.bool (decide (l < r)))
  | _ => .error (.invalidStringOp op)

/-- executeNil from interpreter/expression.go: reached when either
operand is nil; EQUAL returns true and UNEQUAL false *unconditionally*
(the operand values are not inspected), anything else errors. -/
def executeNil (op : TokenType) : Except Rte Value :=
  match op with
  | .EQUAL => .ok (.bool true)
  | .UNEQUAL => .ok (.bool false)
  | _ => .error .nilOnlyEquality

/-- The operand dispatch of VisitBinaryExpr (interpreter/expression.go)
after both operands are evaluated: numeric if both convert via toFloat,
else string if both are strings, else the nil case if either operand is
nil, else a mismatched-types error naming both Go type names. -/
def evalBinaryOp (l r : Value) (op : TokenType) : Except Rte Value :=
  match toFloat l, toFloat r with
  | some ln, some rn => executeNumeric ln rn op
  | _, _ =>
    match l, r with
    | .str ls, .str rs => executeString ls rs op
    | _, _ =>
      if l = .nil ∨ r = .nil then executeNil op
      else .error (.mismatchedTypes (typeName l) (typeName r))

/-! ### Environment

Environment (interpreter/environment.go) is a struct with a map and an
`Enclosing *Environment`.  In the sources the only place a non-nil
Enclosing pointer is ever created is VisitBlockStatement, which sets it to
`&i.Environment`, i.e. to the address of the interpreter's *field*; the
very next step (executeBlock) overwrites that field with the child
environment itself.  Hence at runtime an Enclosing pointer, when present,
always dereferences to the active environment itself, and a lookup or
assignment that misses the local map recurses on the same environment
forever.  We therefore model an environment as its local map plus a flag
recording whether Enclosing is non-nil, and a chain walk that misses
locally either diverges (flag set) or hits the undefined-variable panic
(root). -/

/-- Association-list lookup mirroring a Go map read. -/
def lookupAssoc : List (String × Value) → String → Option Value
  | [], _ => none
  | (k, v) :: rest, n => if k = n then some v else lookupAssoc rest n

/-- Association-list write mirroring a Go map write (overwrite or add). -/
def updateAssoc : List (String × Value) → String → Value → List (String × Value)
  | [], n, v => [(n, v)]
  | (k, w) :: rest, n, v =>
    if k = n then (n, v) :: rest else (k, w) :: updateAssoc rest n v

/-- Environment from interpreter/environment.go, with the Enclosing
pointer collapsed to a flag as explained above. -/
structure Environment where
  map : List (String × Value)
  selfEnclosing : Bool
deriving DecidableEq, Repr

/-- Outcome of Environment.Get: found, the undefined-variable panic at
the chain root, or divergence through a self-referential Enclosing. -/
inductive GetRes
  | found (v : Value)
  | undefined
  | selfLoop
deriving DecidableEq, Repr

/-- Environment.Get from interpreter/environment.go: local map first;
on a miss, recurse through Enclosing if non-nil (which at runtime is the
environment itself, so the recursion never terminates), else panic with
the undefined-variable runtime error. -/
def Environment.get (env : Environment) (name : String) : GetRes :=
  match lookupAssoc env.map name with
  | some v => .found v
  | none => if env.selfEnclosing then .selfLoop else .undefined

/-- Outcome of Environment.Assign. -/
inductive AssignRes
  | done (env : Environment)
  | undefined
  | selfLoop
deriving DecidableEq, Repr

/-- Environment.Assign from interpreter/environment.go: overwrite an
existing local binding; on a miss recurse through Enclosing if non-nil
(self-referential at runtime, hence divergence), else panic with the
undefined-variable runtime error.  Assignment never creates a binding. -/
def Environment.assign (env : Environment) (name : String) (v : Value) : AssignRes :=
  match lookupAssoc env.map name with
  | some _ => .done { env with map := updateAssoc env.map name v }
  | none => if env.selfEnclosing then .selfLoop else .undefined

/-- Environment.Define from interpreter/environment.go: always writes the
local map only (shadowing allowed, never fails). -/
def Environment.define (env : Environment) (name : String) (v : Value) : Environment :=
  { env with map := updateAssoc env.map name v }

/-! ### AST -/

/-- Expression nodes from ast/expression.go: LiteralExpression (value +
token), VariableExpression, UnaryExpression, BinaryExpression,
GroupingExpression, AssignmentExpression. -/
inductive Expr
  | lit (v : Value) (tk : Token)
  | variable (name : Token)
  | unary (op : Token) (right : Expr)
  | binary (left : Expr) (op : Token) (right : Expr)
  | grouping (e : Expr)
  | assign (name : Token) (value : Expr)
deriving DecidableEq, Repr

/-- Statement nodes from ast/statement.go plus the BlockStatement and
IfStatement shapes constructed by the parser (parser/statement.go):
ExpressionStatement, VariableDeclarationStatement (optional initializer),
BlockStatement, IfStatement (optional else branch, itself an IfStatement
for ELIF chains). -/
inductive Stmt
  | exprStmt (e : Expr)
  | varDecl (name : Token) (init : Option Expr)
  | block (stmts : List Stmt)
  | ifS (cond : Expr) (thenB : Stmt) (elseB : Option Stmt)

mutual

/-- Decidable equality for Stmt (not derivable automatically because of
the nested List). -/
def stmtDecEq : (a b : Stmt) → Decidable (a = b)
  | .exprStmt e1, .exprStmt e2 =>
    match decEq e1 e2 with
    | isTrue h => isTrue (by rw [h])
    | isFalse h => isFalse (by intro hh; injection hh with a; exact h a)
  | .exprStmt _, .varDecl _ _ => isFalse (fun h => Stmt.noConfusion h)
  | .exprStmt _, .block _ => isFalse (fun h => Stmt.noConfusion h)
  | .exprStmt _, .ifS _ _ _ => isFalse (fun h => Stmt.noConfusion h)
  | .varDecl _ _, .exprStmt _ => isFalse (fun h => Stmt.noConfusion h)
  | .varDecl t1 o1, .varDecl t2 o2 =>
    match decEq t1 t2, decEq o1 o2 with
    | isTrue h1, isTrue h2 => isTrue (by rw [h1, h2])
    | isFalse h1, _ => isFalse (by intro hh; injection hh with a b; exact h1 a)
    | _, isFalse h2 => isFalse (by intro hh; injection hh with a b; exact h2 b)
  | .varDecl _ _, .block _ => isFalse (fun h => Stmt.noConfusion h)
  | .varDecl _ _, .ifS _ _ _ => isFalse (fun h => Stmt.noConfusion h)
  | .block _, .exprStmt _ => isFalse (fun h => Stmt.noConfusion h)
  | .block _, .varDecl _ _ => isFalse (fun h => Stmt.noConfusion h)
  | .block l1, .block l2 =>
    match stmtListDecEq l1 l2 with
    | isTrue h => isTrue (by rw [h])
    | isFalse h => isFalse (by intro hh; injection hh with a; exact h a)
  | .block _, .ifS _ _ _ => isFalse (fun h => Stmt.noConfusion h)
  | .ifS _ _ _, .exprStmt _ => isFalse (fun h => Stmt.noConfusion h)
  | .ifS _ _ _, .varDecl _ _ => isFalse (fun h => Stmt.noConfusion h)
  | .ifS _ _ _, .block _ => isFalse (fun h => Stmt.noConfusion h)
  | .ifS c1 t1 e1, .ifS c2 t2 e2 =>
    match decEq c1 c2, stmtDecEq t1 t2, stmtOptDecEq e1 e2 with
    | isTrue h1, isTrue h2, isTrue h3 => isTrue (by rw [h1, h2, h3])
    | isFalse h1, _, _ => isFalse (by intro hh; injection hh with a b c; exact h1 a)
    | _, isFalse h2, _ => isFalse (by intro hh; injection hh with a b c; exact h2 b)
    | _, _, isFalse h3 => isFalse (by intro hh; injection hh with a b c; exact h3 c)

/-- Decidable equality for lists of statements. -/
def stmtListDecEq : (a b : List Stmt) → Decidable (a = b)
  | [], [] => isTrue rfl
  | [], _ :: _ => isFalse (fun h => List.noConfusion h)
  | _ :: _, [] => isFalse (fun h => List.noConfusion h)
  | x :: xs, y :: ys =>
    match stmtDecEq x y, stmtListDecEq xs ys with
    | isTrue h1, isTrue h2 => isTrue (by rw [h1, h2])
    | isFalse h1, _ => isFalse (by intro hh; injection hh with a b; exact h1 a)
    | _, isFalse h2 => isFalse (by intro hh; injection hh with a b; exact h2 b)

/-- Decidable equality for optional statements. -/
def stmtOptDecEq : (a b : Option Stmt) → Decidable (a = b)
  | none, none => isTrue rfl
  | none, some _ => isFalse (fun h => Option.noConfusion h)
  | some _, none => isFalse (fun h => Option.noConfusion h)
  | some x, some y =>
    match stmtDecEq x y with
    | isTrue h => isTrue (by rw [h])
    | isFalse h => isFalse (by intro hh; injection hh with a; exact h a)

end

instance : DecidableEq Stmt := stmtDecEq

/-! ### Expression evaluation -/

/-- Result of evaluating an expression: a value and the environment after
its side effects, an interpreter error (also with the environment, since
Go mutates in place before the error returns), or divergence through the
self-referential scope chain. -/
inductive EvalRes
  | ok (v : Value) (env : Environment)
  | err (e : Rte) (env : Environment)
  | div
deriving DecidableEq, Repr

/-- The expression evaluator: VisitLiteralExpr, VisitVariableExpr,
VisitUnaryExpr, VisitBinaryExpr, VisitGroupingExpr, VisitAssignmentExpr
from interpreter/expression.go.  Binary evaluation runs the left operand
first and returns its error without touching the right operand. -/
def evalExpr : Expr → Environment → EvalRes
  | .lit v _, env => .ok v env
  | .variable tk, env =>
    match env.get tk.lexeme with
    | .found v => .ok v env
    | .undefined => .err (.panicUndefinedVar tk.lexeme) env
    | .selfLoop => .div
  | .unary opTok right, env =>
    match evalExpr right env with
    | .err e env1 => .err e env1
    | .div => .div
    | .ok rv env1 =>
      match opTok.type with
      | .NEGATE =>
        match rv with
        | .bool b => .ok (.bool (!b)) env1
        | _ => .err (.negateRequiresBool (typeName rv)) env1
      | .SUBTRACT =>
        match rv with
        | .int n => .ok (.int (-n)) env1
        | .float q => .ok (.float (-q)) env1
        | _ => .err (.subtractRequiresNumber (typeName rv)) env1
      | _ => .err (.unknownUnaryOp opTok.lexeme) env1
  | .binary l opTok r, env =>
    match evalExpr l env with
    | .err e env1 => .err e env1
    | .div => .div
    | .ok lv env1 =>
      match evalExpr r env1 with
      | .err e env2 => .err e env2
      | .div => .div
      | .ok rv env2 =>
        match evalBinaryOp lv rv opTok.type with
        | .ok v => .ok v env2
        | .error e => .err e env2
  | .grouping e, env => evalExpr e env
  | .assign tk value, env =>
    match evalExpr value env with
    | .err e env1 => .err e env1
    | .div => .div
    | .ok v env1 =>
      match env1.assign tk.lexeme v with
      | .done env2 => .ok v env2
      | .undefined => .err (.panicUndefinedVar tk.lexeme) env1
      | .selfLoop => .div

/-! ### Statement execution -/

/-- Result of executing a statement (or list of statements): the final
environment, or a fail-fast runtime error with the environment at that
point, or divergence.  The log records, in order, every statement on
which execution began; it is pure instrumentation used to state branch
exclusivity and does not influence the computed environment. -/
inductive ExecRes
  | ok (env : Environment) (log : List Stmt)
  | err (e : Rte) (env : Environment) (log : List Stmt)
  | div
deriving DecidableEq

/-- Prefix the execution log of a result with the given statement. -/
def prependLog (s : Stmt) : ExecRes → ExecRes
  | .ok env log => .ok env (s :: log)
  | .err e env log => .err e env (s :: log)
  | .div => .div

mutual

/-- Statement execution.  VisitExpressionStatement evaluates and discards
the value; VisitVarDeclarationStatement evaluates the optional
initializer (nil default) and Defines into the current environment;
VisitBlockStatement / executeBlock (interpreter/interpreter.go) runs the
body in a child environment (empty map, non-nil Enclosing) and restores
the previous environment on exit whether the body succeeded or failed
(the deferred restore).  The IfStatement case is missing from the
sources (ast/visitor.go declares VisitIfStatement but no implementation
exists); it is Modelled from the spec: evaluate the condition, coerce via
the truthiness rule, and execute exactly one of then-branch, else-branch
or neither. -/
def execStmt : Stmt → Environment → ExecRes
  | .exprStmt e, env =>
    match evalExpr e env with
    | .ok _ env1 => .ok env1 [Stmt.exprStmt e]
    | .err m env1 => .err m env1 [Stmt.exprStmt e]
    | .div => .div
  | .varDecl tk init, env =>
    match init with
    | none => .ok (env.define tk.lexeme .nil) [Stmt.varDecl tk none]
    | some e =>
      match evalExpr e env with
      | .ok v env1 => .ok (env1.define tk.lexeme v) [Stmt.varDecl tk (some e)]
      | .err m env1 => .err m env1 [Stmt.varDecl tk (some e)]
      | .div => .div
  | .block sts, env =>
    match execList sts { map := [], selfEnclosing := true } with
    | .ok _ log => .ok env (Stmt.block sts :: log)
    | .err m _ log => .err m env (Stmt.block sts :: log)
    | .div => .div
  | .ifS c t eb, env =>
    match evalExpr c env with
    | .ok v env1 =>
      if isTruthy v then prependLog (Stmt.ifS c t eb) (execStmt t env1)
      else
        match eb with
        | some e => prependLog (Stmt.ifS c t (some e)) (execStmt e env1)
        | none => .ok env1 [Stmt.ifS c t none]
    | .err m env1 => .err m env1 [Stmt.ifS c t eb]
    | .div => .div

/-- Sequential execution of a statement list, fail-fast on the first
error, accumulating the execution log (the loop bodies of interpret and
executeBlock in interpreter/interpreter.go). -/
def execList : List Stmt → Environment → ExecRes
  | [], env => .ok env []
  | st :: rest, env =>
    match execStmt st env with
    | .ok env1 log1 =>
      match execList rest env1 with
      | .ok env2 log2 => .ok env2 (log1 ++ log2)
      | .err m env2 log2 => .err m env2 (log1 ++ log2)
      | .div => .div
    | .err m env1 log1 => .err m env1 log1
    | .div => .div

end

/-- interpret from interpreter/interpreter.go: execute the statements in
sequence against the given (root) environment, stopping at the first
failure. -/
def interpret (sts : List Stmt) (env : Environment) : ExecRes :=
  execList sts env

/-- The root environment of a fresh Interpreter: empty map, nil
Enclosing. -/
def rootEnv : Environment := { map := [], selfEnclosing := false }

/-! ### Scanner

Scanner from the scanner package: consumes the source one code point at a
time (the Go code indexes runes through util.ReadSingleChar;
`unicode.IsLetter` / `unicode.IsDigit` are modelled by the ASCII
Char.isAlpha / Char.isDigit, adequate for every input considered here).
The scanner state is the fixed rune list plus the indices current / line
and the docklett flag; `start` is always the value of `current` at
scanToken entry, so it is passed explicitly where needed. -/

/-- Scan errors, one constructor per error return in scanner.go:
the bare-ampersand case, the default unrecognized-character case, the
unterminated string literal, and an unrecognized @-keyword. -/
inductive ScanErr
  | unexpectedAmp
  | unexpectedChar (c : Char)
  | unterminatedString
  | unexpectedDocklett (w : String)
deriving DecidableEq, Repr

/-- nextMatch from scanner.go: consume the next rune only if it equals
the expected one; returns the match flag and the new current index. -/
def nextMatch (src : List Char) (cur : Nat) (expected : Char) : Bool × Nat :=
  match src.get? cur with
  | some c => if c = expected then (true, cur + 1) else (false, cur)
  | none => (false, cur)

/-! The scanner loops below recurse structurally on an explicit bound n;
every call site passes n = src.length, which dominates the remaining
input (each step advances current by one while current < src.length), so
the n = 0 base case coincides exactly with the at-end exit of the Go
loop and the bound is never the reason a loop stops. -/

/-- The loop of scanComment: skip to the newline (not consumed) or to end
of input. -/
def commentLoop : Nat → List Char → Nat → Nat
  | 0, _, cur => cur
  | n + 1, src, cur =>
    if h : cur < src.length then
      if src.get ⟨cur, h⟩ = '\n' then cur else commentLoop n src (cur + 1)
    else cur

/-- The loop of scanStringToken: accumulate runes (newlines increment the
line counter) until the closing quote, which is consumed; reaching end of
input first yields none (the unterminated-string error) with current at
the end. -/
def stringLoop : Nat → List Char → Nat → Nat → String → Option String × Nat × Nat
  | 0, _, cur, line, _ => (none, cur, line)
  | n + 1, src, cur, line, acc =>
    if h : cur < src.length then
      if src.get ⟨cur, h⟩ = '"' then (some acc, cur + 1, line)
      else
        stringLoop n src (cur + 1)
          (if src.get ⟨cur, h⟩ = '\n' then line + 1 else line)
          (acc.push (src.get ⟨cur, h⟩))
    else (none, cur, line)

/-- The digit-run loop of scanNumberToken. -/
def digitsLoop : Nat → List Char → Nat → Nat
  | 0, _, cur => cur
  | n + 1, src, cur =>
    if h : cur < src.length then
      if (src.get ⟨cur, h⟩).isDigit then digitsLoop n src (cur + 1) else cur
    else cur

/-- Natural number denoted by a run of decimal digits. -/
def digitsVal (cs : List Char) : Nat :=
  cs.foldl (fun acc c => acc * 10 + (c.toNat - 48)) 0

/-- scanNumberToken from scanner.go, entered with the first digit already
consumed (cur points past it, start at the digit): scan the integer run,
then an optional dot plus fraction run switching the literal from int to
float64; returns the literal and the new current index. -/
def numberScan (src : List Char) (start cur : Nat) : Value × Nat :=
  if ((src.get? (digitsLoop src.length src cur)).getD (Char.ofNat 0)) = '.' then
    (Value.float
      ((digitsVal ((src.drop start).take (digitsLoop src.length src cur - start)) : ℚ) +
        (digitsVal ((src.drop (digitsLoop src.length src cur + 1)).take
            (digitsLoop src.length src (digitsLoop src.length src cur + 1) -
              (digitsLoop src.length src cur + 1))) : ℚ) /
          (10 : ℚ) ^ ((src.drop (digitsLoop src.length src cur + 1)).take
            (digitsLoop src.length src (digitsLoop src.length src cur + 1) -
              (digitsLoop src.length src cur + 1))).length),
      digitsLoop src.length src (digitsLoop src.length src cur + 1))
  else
    (.int (digitsVal ((src.drop start).take (digitsLoop src.length src cur - start))),
      digitsLoop src.length src cur)

/-- The loop of scanDockerToken: read runes up to (but not including) a
newline, except that a newline whose last preceding non-space rune is a
backslash is a line continuation and is consumed (incrementing the line
count, resetting the tracker); returns the new current and line. -/
def dockerLoop : Nat → List Char → Nat → Nat → Char → Nat × Nat
  | 0, _, cur, line, _ => (cur, line)
  | n + 1, src, cur, line, lastNS =>
    if h : cur < src.length then
      if src.get ⟨cur, h⟩ = '\n' then
        if lastNS = '\\' then dockerLoop n src (cur + 1) (line + 1) (Char.ofNat 0)
        else (cur, line)
      else
        dockerLoop n src (cur + 1) line
          (if src.get ⟨cur, h⟩ ≠ ' ' ∧ src.get ⟨cur, h⟩ ≠ '\t' ∧ src.get ⟨cur, h⟩ ≠ '\r'
            then src.get ⟨cur, h⟩ else lastNS)
    else (cur, line)

/-- The alphanumeric-run loop shared by scanDocklettToken and
scanKeywordsAndIdentifierTokens: accumulate letters and digits. -/
def wordLoop : Nat → List Char → Nat → String → String × Nat
  | 0, _, cur, acc => (acc, cur)
  | n + 1, src, cur, acc =>
    if h : cur < src.length then
      if (src.get ⟨cur, h⟩).isAlpha ∨ (src.get ⟨cur, h⟩).isDigit then
        wordLoop n src (cur + 1) (acc.push (src.get ⟨cur, h⟩))
      else (acc, cur)
    else (acc, cur)

/-- Result of one scanToken call: the token type and literal (ILLEGAL
with no error means emit nothing), the optional scan error, and the
updated current / line / docklett state. -/
structure ScanStep where
  tt : TokenType
  lit : Value
  err : Option ScanErr
  cur : Nat
  line : Nat
  dk : Bool
deriving DecidableEq, Repr

/-- The two-character-operator helper: the branch body shared by the
one-character-lookahead cases of scanToken. -/
def twoCharOp (src : List Char) (cur line : Nat) (dk : Bool)
    (expected : Char) (matched single : TokenType) : ScanStep :=
  ⟨if (nextMatch src cur expected).1 then matched else single, .nil, none,
    (nextMatch src cur expected).2, line, dk⟩

/-- scanComment from scanner.go: skip to end of line, emit nothing. -/
def scanComment (src : List Char) (cur line : Nat) (dk : Bool) : ScanStep :=
  ⟨.ILLEGAL, .nil, none, commentLoop src.length src cur, line, dk⟩

/-- scanStringToken from scanner.go: read verbatim until the closing
quote; reaching end of input first is the unterminated-string error. -/
def scanStringToken (src : List Char) (cur line : Nat) (dk : Bool) : ScanStep :=
  if (stringLoop src.length src cur line "").1.isSome then
    ⟨.STRING, .str ((stringLoop src.length src cur line "").1.getD ""), none,
      (stringLoop src.length src cur line "").2.1, (stringLoop src.length src cur line "").2.2, dk⟩
  else
    ⟨.ILLEGAL, .nil, some .unterminatedString,
      (stringLoop src.length src cur line "").2.1, (stringLoop src.length src cur line "").2.2, dk⟩

/-- scanDocklettToken from scanner.go: accumulate the alphanumeric run
after the @ and look it up (case-sensitively) in the DSL keyword table;
an unrecognized @word is a scan error. -/
def scanDocklettToken (src : List Char) (cur line : Nat) : ScanStep :=
  if (docklettKeywordLookup (wordLoop src.length src cur "").1).isSome then
    ⟨(docklettKeywordLookup (wordLoop src.length src cur "").1).getD .ILLEGAL, .nil, none,
      (wordLoop src.length src cur "").2, line, true⟩
  else
    ⟨.ILLEGAL, .nil, some (.unexpectedDocklett ("@" ++ (wordLoop src.length src cur "").1)),
      (wordLoop src.length src cur "").2, line, true⟩

/-- scanNumberToken from scanner.go (wrapped around numberScan). -/
def scanNumberToken (src : List Char) (start cur line : Nat) (dk : Bool) : ScanStep :=
  ⟨.NUMBER, (numberScan src start cur).1, none, (numberScan src start cur).2, line, dk⟩

/-- scanDockerToken from scanner.go: a raw Dockerfile line; the loop
stops before a non-continuation newline. -/
def scanDockerToken (src : List Char) (cur line : Nat) (dk : Bool) : ScanStep :=
  ⟨.DLINE, .nil, none, (dockerLoop src.length src cur line (Char.ofNat 0)).1,
    (dockerLoop src.length src cur line (Char.ofNat 0)).2, dk⟩

/-- The strings.ToUpper call in scanKeywordsAndIdentifierTokens (core
String.toUpper does not reduce definitionally, so map over the runes). -/
def strUpper (s : String) : String := String.mk (s.data.map Char.toUpper)

/-- scanKeywordsAndIdentifierTokens from scanner.go: accumulate the
alphanumeric run starting at the already-consumed first rune c; when the
docklett flag is set, try the DSL keyword table first; then the
(case-insensitive) Dockerfile verb table, delegating to scanDockerToken;
otherwise an IDENTIFIER carrying its text as literal. -/
def scanKeywordsAndIdentifierTokens (c : Char) (src : List Char) (cur line : Nat)
    (dk : Bool) : ScanStep :=
  if dk ∧ (docklettKeywordLookup (wordLoop src.length src cur (String.singleton c)).1).isSome then
    ⟨(docklettKeywordLookup (wordLoop src.length src cur (String.singleton c)).1).getD .ILLEGAL,
      .nil, none, (wordLoop src.length src cur (String.singleton c)).2, line, dk⟩
  else if isDockerKeyword (strUpper (wordLoop src.length src cur (String.singleton c)).1) then
    scanDockerToken src (wordLoop src.length src cur (String.singleton c)).2 line dk
  else
    ⟨.IDENTIFIER, .str (wordLoop src.length src cur (String.singleton c)).1, none,
      (wordLoop src.length src cur (String.singleton c)).2, line, dk⟩

/-- The dispatch of scanToken from scanner.go, on the already-consumed
rune c: skip whitespace, emit NLINE for a newline (clearing the docklett
flag), recognize one- and two-rune operators (a lone ampersand is a scan
error), delimiters, comments, string literals, @-keywords, digit runs and
alphanumeric runs; any other rune is a scan error. -/
def scanTokenAux (c : Char) (src : List Char) (cur line : Nat) (dk : Bool) : ScanStep :=
  if c = ' ' ∨ c = '\t' ∨ c = '\r' then ⟨.ILLEGAL, .nil, none, cur + 1, line, dk⟩
  else if c = '\n' then ⟨.NLINE, .nil, none, cur + 1, line + 1, false⟩
  else if c = '=' then twoCharOp src (cur + 1) line dk '=' .EQUAL .ASSIGN
  else if c = '+' then twoCharOp src (cur + 1) line dk '=' .ADD_ASSIGN .ADD
  else if c = '-' then twoCharOp src (cur + 1) line dk '=' .SUB_ASSIGN .SUBTRACT
  else if c = '*' then twoCharOp src (cur + 1) line dk '=' .MULTI_ASSIGN .MULTI
  else if c = '/' then twoCharOp src (cur + 1) line dk '=' .DIV_ASSIGN .DIVIDE
  else if c = '<' then twoCharOp src (cur + 1) line dk '=' .LTE .LESS
  else if c = '>' then twoCharOp src (cur + 1) line dk '=' .GTE .GREATER
  else if c = '!' then twoCharOp src (cur + 1) line dk '=' .UNEQUAL .NEGATE
  else if c = '&' then
    if (nextMatch src (cur + 1) '&').1 then
      ⟨.AND, .nil, none, (nextMatch src (cur + 1) '&').2, line, dk⟩
    else ⟨.ILLEGAL, .nil, some .unexpectedAmp, (nextMatch src (cur + 1) '&').2, line, dk⟩
  else if c = '(' then ⟨.LPAREN, .nil, none, cur + 1, line, dk⟩
  else if c = ')' then ⟨.RPAREN, .nil, none, cur + 1, line, dk⟩
  else if c = '{' then ⟨.LBRACE, .nil, none, cur + 1, line, dk⟩
  else if c = '}' then ⟨.RBRACE, .nil, none, cur + 1, line, dk⟩
  else if c = '[' then ⟨.LBRACKET, .nil, none, cur + 1, line, dk⟩
  else if c = ']' then ⟨.RBRACKET, .nil, none, cur + 1, line, dk⟩
  else if c = ':' then ⟨.COLON, .nil, none, cur + 1, line, dk⟩
  else if c = ',' then ⟨.COMMA, .nil, none, cur + 1, line, dk⟩
  else if c = '#' then scanComment src (cur + 1) line dk
  else if c = '"' then scanStringToken src (cur + 1) line dk
  else if c = '@' then scanDocklettToken src (cur + 1) line
  else if c.isDigit then scanNumberToken src cur (cur + 1) line dk
  else if c.isAlpha then scanKeywordsAndIdentifierTokens c src (cur + 1) line dk
  else ⟨.ILLEGAL, .nil, some (.unexpectedChar c), cur + 1, line, dk⟩

/-- scanToken proper: consume the rune at current (the Go advanceChar)
and dispatch on it. -/
def scanToken (src : List Char) (cur line : Nat) (dk : Bool) : ScanStep :=
  scanTokenAux ((src.get? cur).getD (Char.ofNat 0)) src cur line dk

/-- The next-index component of nextMatch never moves backwards. -/
theorem nextMatch_ge (src : List Char) (cur : Nat) (c : Char) :
    cur ≤ (nextMatch src cur c).2 := by
  unfold nextMatch
  cases src.get? cur with
  | none => simp
  | some d => by_cases h : d = c <;> simp [h]

/-- commentLoop never moves backwards. -/
theorem commentLoop_ge (n : Nat) (src : List Char) :
    ∀ cur, cur ≤ commentLoop n src cur := by
  induction n with
  | zero => intro cur; simp [commentLoop]
  | succ n ih =>
    intro cur
    simp only [commentLoop]
    split
    · split
      · exact Nat.le_refl _
      · exact Nat.le_trans (Nat.le_succ cur) (ih (cur + 1))
    · exact Nat.le_refl _

/-- stringLoop never moves backwards. -/
theorem stringLoop_ge (n : Nat) (src : List Char) :
    ∀ cur line acc, cur ≤ (stringLoop n src cur line acc).2.1 := by
  induction n with
  | zero => intro cur line acc; simp [stringLoop]
  | succ n ih =>
    intro cur line acc
    simp only [stringLoop]
    split
    · split
      · simp
      · exact Nat.le_trans (Nat.le_succ cur) (ih (cur + 1) _ _)
    · exact Nat.le_refl _

/-- digitsLoop never moves backwards. -/
theorem digitsLoop_ge (n : Nat) (src : List Char) :
    ∀ cur, cur ≤ digitsLoop n src cur := by
  induction n with
  | zero => intro cur; simp [digitsLoop]
  | succ n ih =>
    intro cur
    simp only [digitsLoop]
    split
    · split
      · exact Nat.le_trans (Nat.le_succ cur) (ih (cur + 1))
      · exact Nat.le_refl _
    · exact Nat.le_refl _

/-- numberScan never moves backwards. -/
theorem numberScan_ge (src : List Char) (start cur : Nat) :
    cur ≤ (numberScan src start cur).2 := by
  have h1 := digitsLoop_ge src.length src cur
  have h2 := digitsLoop_ge src.length src (digitsLoop src.length src cur + 1)
  unfold numberScan
  split <;> simp <;> omega

/-- dockerLoop never moves backwards. -/
theorem dockerLoop_ge (n : Nat) (src : List Char) :
    ∀ cur line lastNS, cur ≤ (dockerLoop n src cur line lastNS).1 := by
  induction n with
  | zero => intro cur line lastNS; simp [dockerLoop]
  | succ n ih =>
    intro cur line lastNS
    simp only [dockerLoop]
    split
    · split
      · split
        · exact Nat.le_trans (Nat.le_succ cur) (ih (cur + 1) _ _)
        · exact Nat.le_refl _
      · exact Nat.le_trans (Nat.le_succ cur) (ih (cur + 1) _ _)
    · exact Nat.le_refl _

/-- wordLoop never moves backwards. -/
theorem wordLoop_ge (n : Nat) (src : List Char) :
    ∀ cur acc, cur ≤ (wordLoop n src cur acc).2 := by
  induction n with
  | zero => intro cur acc; simp [wordLoop]
  | succ n ih =>
    intro cur acc
    simp only [wordLoop]
    split
    · split
      · exact Nat.le_trans (Nat.le_succ cur) (ih (cur + 1) _)
      · exact Nat.le_refl _
    · exact Nat.le_refl _

/-- twoCharOp never moves backwards. -/
theorem twoCharOp_ge (src : List Char) (cur line : Nat) (dk : Bool)
    (e : Char) (m s : TokenType) : cur ≤ (twoCharOp src cur line dk e m s).cur :=
  nextMatch_ge src cur e

/-- scanComment never moves backwards. -/
theorem scanComment_ge (src : List Char) (cur line : Nat) (dk : Bool) :
    cur ≤ (scanComment src cur line dk).cur :=
  commentLoop_ge src.length src cur

/-- scanStringToken never moves backwards. -/
theorem scanStringToken_ge (src : List Char) (cur line : Nat) (dk : Bool) :
    cur ≤ (scanStringToken src cur line dk).cur := by
  have h := stringLoop_ge src.length src cur line ""
  unfold scanStringToken
  split <;> simpa using h

/-- scanDocklettToken never moves backwards. -/
theorem scanDocklettToken_ge (src : List Char) (cur line : Nat) :
    cur ≤ (scanDocklettToken src cur line).cur := by
  have h := wordLoop_ge src.length src cur ""
  unfold scanDocklettToken
  split <;> simpa using h

/-- scanNumberToken never moves backwards. -/
theorem scanNumberToken_ge (src : List Char) (start cur line : Nat) (dk : Bool) :
    cur ≤ (scanNumberToken src start cur line dk).cur :=
  numberScan_ge src start cur

/-- scanDockerToken never moves backwards. -/
theorem scanDockerToken_ge (src : List Char) (cur line : Nat) (dk : Bool) :
    cur ≤ (scanDockerToken src cur line dk).cur :=
  dockerLoop_ge src.length src cur line (Char.ofNat 0)

/-- scanKeywordsAndIdentifierTokens never moves backwards. -/
theorem scanKeywordsAndIdentifierTokens_ge (c : Char) (src : List Char)
    (cur line : Nat) (dk : Bool) :
    cur ≤ (scanKeywordsAndIdentifierTokens c src cur line dk).cur := by
  have hw := wordLoop_ge src.length src cur (String.singleton c)
  have hd := scanDockerToken_ge src (wordLoop src.length src cur (String.singleton c)).2 line dk
  unfold scanKeywordsAndIdentifierTokens
  split
  · simpa using hw
  · split
    · omega
    · simpa using hw

/-- scanTokenAux strictly advances the current index. -/
theorem scanTokenAux_progress (c : Char) (src : List Char) (cur line : Nat) (dk : Bool) :
    cur < (scanTokenAux c src cur line dk).cur := by
  have h1 := twoCharOp_ge src (cur + 1) line dk '=' .EQUAL .ASSIGN
  have h2 := twoCharOp_ge src (cur + 1) line dk '=' .ADD_ASSIGN .ADD
  have h3 := twoCharOp_ge src (cur + 1) line dk '=' .SUB_ASSIGN .SUBTRACT
  have h4 := twoCharOp_ge src (cur + 1) line dk '=' .MULTI_ASSIGN .MULTI
  have h5 := twoCharOp_ge src (cur + 1) line dk '=' .DIV_ASSIGN .DIVIDE
  have h6 := twoCharOp_ge src (cur + 1) line dk '=' .LTE .LESS
  have h7 := twoCharOp_ge src (cur + 1) line dk '=' .GTE .GREATER
  have h8 := twoCharOp_ge src (cur + 1) line dk '=' .UNEQUAL .NEGATE
  have ha := nextMatch_ge src (cur + 1) '&'
  have hcm := scanComment_ge src (cur + 1) line dk
  have hst := scanStringToken_ge src (cur + 1) line dk
  have hdt := scanDocklettToken_ge src (cur + 1) line
  have hnt := scanNumberToken_ge src cur (cur + 1) line dk
  have hkw := scanKeywordsAndIdentifierTokens_ge c src (cur + 1) line dk
  unfold scanTokenAux
  by_cases hc1 : c = ' ' ∨ c = '\t' ∨ c = '\r'
  · rw [if_pos hc1]
    (try dsimp only); omega
  rw [if_neg hc1]
  by_cases hc2 : c = '\n'
  · rw [if_pos hc2]
    (try dsimp only); omega
  rw [if_neg hc2]
  by_cases hc3 : c = '='
  · rw [if_pos hc3]
    (try dsimp only); omega
  rw [if_neg hc3]
  by_cases hc4 : c = '+'
  · rw [if_pos hc4]
    (try dsimp only); omega
  rw [if_neg hc4]
  by_cases hc5 : c = '-'
  · rw [if_pos hc5]
    (try dsimp only); omega
  rw [if_neg hc5]
  by_cases hc6 : c = '*'
  · rw [if_pos hc6]
    (try dsimp only); omega
  rw [if_neg hc6]
  by_cases hc7 : c = '/'
  · rw [if_pos hc7]
    (try dsimp only); omega
  rw [if_neg hc7]
  by_cases hc8 : c = '<'
  · rw [if_pos hc8]
    (try dsimp only); omega
  rw [if_neg hc8]
  by_cases hc9 : c = '>'
  · rw [if_pos hc9]
    (try dsimp only); omega
  rw [if_neg hc9]
  by_cases hc10 : c = '!'
  · rw [if_pos hc10]
    (try dsimp only); omega
  rw [if_neg hc10]
  by_cases hc11 : c = '&'
  · rw [if_pos hc11]
    split <;> ((try dsimp only); omega)
  rw [if_neg hc11]
  by_cases hc12 : c = '('
  · rw [if_pos hc12]
    (try dsimp only); omega
  rw [if_neg hc12]
  by_cases hc13 : c = ')'
  · rw [if_pos hc13]
    (try dsimp only); omega
  rw [if_neg hc13]
  by_cases hc14 : c = '{'
  · rw [if_pos hc14]
    (try dsimp only); omega
  rw [if_neg hc14]
  by_cases hc15 : c = '}'
  · rw [if_pos hc15]
    (try dsimp only); omega
  rw [if_neg hc15]
  by_cases hc16 : c = '['
  · rw [if_pos hc16]
    (try dsimp only); omega
  rw [if_neg hc16]
  by_cases hc17 : c = ']'
  · rw [if_pos hc17]
    (try dsimp only); omega
  rw [if_neg hc17]
  by_cases hc18 : c = ':'
  · rw [if_pos hc18]
    (try dsimp only); omega
  rw [if_neg hc18]
  by_cases hc19 : c = ','
  · rw [if_pos hc19]
    (try dsimp only); omega
  rw [if_neg hc19]
  by_cases hc20 : c = '#'
  · rw [if_pos hc20]
    (try dsimp only); omega
  rw [if_neg hc20]
  by_cases hc21 : c = '\"'
  · rw [if_pos hc21]
    (try dsimp only); omega
  rw [if_neg hc21]
  by_cases hc22 : c = '@'
  · rw [if_pos hc22]
    (try dsimp only); omega
  rw [if_neg hc22]
  by_cases hc23 : c.isDigit = true
  · rw [if_pos hc23]
    (try dsimp only); omega
  rw [if_neg hc23]
  by_cases hc24 : c.isAlpha = true
  · rw [if_pos hc24]
    (try dsimp only); omega
  rw [if_neg hc24]
  (try dsimp only); omega

/-- scanToken strictly advances the current index. -/
theorem scanToken_progress (src : List Char) (cur line : Nat) (dk : Bool) :
    cur < (scanToken src cur line dk).cur :=
  scanTokenAux_progress _ src cur line dk


/-- Outcome of ScanSource: the full token list (EOF appended) on success,
or the first scan error together with the index where scanning stopped
and the tokens emitted before the error.  outOfFuel is an artifact of the
fuel encoding of the loop; scanToken strictly advances the index
(scanToken_progress), so fuel source-length + 1 always suffices and
scanRun never returns it. -/
inductive ScanOut
  | done (toks : List Token)
  | failed (e : ScanErr) (stopCur : Nat) (toks : List Token)
  | outOfFuel
deriving DecidableEq, Repr

/-- Build the token appended by addToken: lexeme is the source slice
from start to the new current, position is (line after the scan,
start + 1). -/
def mkToken (src : List Char) (name : String) (start : Nat) (tt : TokenType)
    (lit : Value) (cur line : Nat) : Token :=
  { type := tt, lexeme := String.mk ((src.drop start).take (cur - start)),
    line := line, file := name, col := start + 1, literal := lit }

/-- The loop of ScanSource from scanner.go: while not at end, set start
to current and scan one token; a scan error aborts the pass immediately
(the error is returned, scanning does not continue); an ILLEGAL result
with no error (whitespace, comments) emits nothing; otherwise the token
is emitted.  At end of input exactly one EOF token is appended carrying
the final line and column current + 1. -/
def scanLoop : Nat → List Char → String → Nat → Nat → Bool → ScanOut
  | 0, _, _, _, _, _ => .outOfFuel
  | fuel + 1, src, name, cur, line, dk =>
    if cur < src.length then
      match scanToken src cur line dk with
      | ⟨tt, lit, err, cur2, line2, dk2⟩ =>
        match err with
        | some e => .failed e cur2 []
        | none =>
          if tt = .ILLEGAL then scanLoop fuel src name cur2 line2 dk2
          else
            match scanLoop fuel src name cur2 line2 dk2 with
            | .done toks => .done (mkToken src name cur tt lit cur2 line2 :: toks)
            | .failed e sc toks => .failed e sc (mkToken src name cur tt lit cur2 line2 :: toks)
            | .outOfFuel => .outOfFuel
    else
      .done [{ type := .EOF, lexeme := "", line := line, file := name,
               col := cur + 1, literal := .nil }]

/-- ScanSource on a whole source text: line starts at 1, docklett flag
clear, and fuel one more than the rune count (sufficient by
scanToken_progress). -/
def scanRun (source : String) (name : String) : ScanOut :=
  scanLoop (source.data.length + 1) source.data name 0 1 false

/-! ### Parser

Parser from the parser package: a cursor over the fixed token slice.  The
Go code indexes `p.Tokens[p.current]` directly; an index past the end is
an out-of-range panic, modelled by the crash outcome.  Recursion is
measured by an explicit fuel parameter (the fuelOut outcome); every Go
run of the parser corresponds to a run with sufficiently large fuel. -/

/-- Parse error messages, one constructor per error string in the parser
sources. -/
inductive PMsg
  | unexpectedToken (lex : String)
  | unableToAssign (lex : String)
  | expectIdentifierAfterSet
  | expectedNewlineAfterExpression
  | expectedRParen
  | expectedNewlineAfterIfCondition
  | expectedNewlineAfterElse
  | endExpectedAfterIfBlock
  | endExpectedAfterBlock
deriving DecidableEq, Repr

/-- ParseError from compiler/error: the offending token and message. -/
structure ParseError where
  tok : Token
  msg : PMsg
deriving DecidableEq, Repr

/-- Outcome of a parser sub-rule: success with the parsed value and new
cursor, a parse error with the cursor where it was raised, the Go
index-out-of-range panic, or fuel exhaustion (an artifact of the fuel
encoding, never reached at adequate fuel). -/
inductive POut (α : Type)
  | ok (a : α) (cur : Nat)
  | perr (e : ParseError) (cur : Nat)
  | crash
  | fuelOut
deriving DecidableEq

/-- getCurrentToken from parser.go: p.Tokens[p.current]; none models the
out-of-range panic. -/
def getCurrentToken (toks : List Token) (cur : Nat) : Option Token :=
  toks.get? cur

/-- getPreviousToken from parser.go: p.Tokens[p.current-1]. -/
def getPreviousToken (toks : List Token) (cur : Nat) : Option Token :=
  if cur = 0 then none else toks.get? (cur - 1)

/-- advanceToken from parser.go: return the current token and advance. -/
def advanceToken (toks : List Token) (cur : Nat) : POut Token :=
  match toks.get? cur with
  | some t => .ok t (cur + 1)
  | none => .crash

/-- The previous token as a POut (used after a successful consume where
the Go code reads p.getPreviousToken()). -/
def prevTok (toks : List Token) (cur : Nat) : POut Token :=
  match getPreviousToken toks cur with
  | some t => .ok t cur
  | none => .crash

/-- checkCurrentToken from parser.go (variadic form): false at EOF, else
whether the current token type is among the given types; none models the
panic inside isAtEnd. -/
def checkCurrentToken (toks : List Token) (cur : Nat) (types : List TokenType) :
    Option Bool :=
  match toks.get? cur with
  | none => none
  | some t =>
    if t.type = .EOF then some false
    else some (types.any (fun x => decide (x = t.type)))

/-- matchCurrentToken from parser.go: consume the current token iff its
type is among the given ones. -/
def matchCurrentToken (toks : List Token) (cur : Nat) (types : List TokenType) :
    POut Bool :=
  match checkCurrentToken toks cur types with
  | none => .crash
  | some true => .ok true (cur + 1)
  | some false => .ok false cur

/-- consumeMatchingToken from parser.go: consume and return the current
token if it matches, else a ParseError naming the current token. -/
def consumeMatchingToken (toks : List Token) (cur : Nat) (tt : TokenType) (m : PMsg) :
    POut Token :=
  match checkCurrentToken toks cur [tt] with
  | none => .crash
  | some true =>
    match toks.get? cur with
    | some t => .ok t (cur + 1)
    | none => .crash
  | some false =>
    match toks.get? cur with
    | some t => .perr ⟨t, m⟩ cur
    | none => .crash

/-- The newline comparison constant of Parser.synchronize.  The Go source
writes a BACKQUOTED raw string containing a backslash followed by the
letter n — two characters — not an actual newline; an NLINE token's
lexeme is the single newline character, so this comparison never holds
for a real newline token. -/
def syncNewline : String := "\\n"

/-- The loop of Parser.synchronize: while not at end (reading the current
token — the crash point past EOF), stop if the previously consumed
token's lexeme equals the raw backslash-n string, or if the current
token's lexeme is a Docklett or Docker keyword; otherwise discard the
current token and continue. -/
def syncLoop (toks : List Token) : Nat → Nat → POut Unit
  | 0, _ => .fuelOut
  | fuel + 1, cur =>
    match toks.get? cur with
    | none => .crash
    | some t =>
      if t.type = .EOF then .ok () cur
      else
        match getPreviousToken toks cur with
        | none => .crash
        | some prev =>
          if prev.lexeme = syncNewline then .ok () cur
          else if isDocklettKeyword t.lexeme || isDockerKeyword t.lexeme then .ok () cur
          else syncLoop toks fuel (cur + 1)

/-- Parser.synchronize: discard the offending token unconditionally, then
run the discard loop. -/
def synchronize (toks : List Token) (fuel cur : Nat) : POut Unit :=
  match advanceToken toks cur with
  | .ok _ cur1 => syncLoop toks fuel cur1
  | _ => .crash

mutual

/-- primary from parser/expression.go: TRUE and FALSE become boolean
literals; STRING and NUMBER literals carry the token literal payload; an
IDENTIFIER becomes a LiteralExpression whose value is the *lexeme string*
(no VariableExpression is ever constructed); a parenthesized expression
becomes a Grouping; anything else is the unexpected-token parse error
naming the current token. -/
def primaryFn : Nat → List Token → Nat → POut Expr
  | 0, _, _ => .fuelOut
  | fuel + 1, toks, cur =>
    match matchCurrentToken toks cur [.TRUE] with
    | .perr e c => .perr e c | .crash => .crash | .fuelOut => .fuelOut
    | .ok bT cur1 =>
    if bT then
      match prevTok toks cur1 with
      | .ok t c => .ok (.lit (.bool true) t) c
      | .perr e c => .perr e c | .crash => .crash | .fuelOut => .fuelOut
    else
    match matchCurrentToken toks cur1 [.FALSE] with
    | .perr e c => .perr e c | .crash => .crash | .fuelOut => .fuelOut
    | .ok bF cur2 =>
    if bF then
      match prevTok toks cur2 with
      | .ok t c => .ok (.lit (.bool false) t) c
      | .perr e c => .perr e c | .crash => .crash | .fuelOut => .fuelOut
    else
    match matchCurrentToken toks cur2 [.STRING, .NUMBER] with
    | .perr e c => .perr e c | .crash => .crash | .fuelOut => .fuelOut
    | .ok bL cur3 =>
    if bL then
      match prevTok toks cur3 with
      | .ok t c => .ok (.lit t.literal t) c
      | .perr e c => .perr e c | .crash => .crash | .fuelOut => .fuelOut
    else
    match matchCurrentToken toks cur3 [.IDENTIFIER] with
    | .perr e c => .perr e c | .crash => .crash | .fuelOut => .fuelOut
    | .ok bI cur4 =>
    if bI then
      match prevTok toks cur4 with
      | .ok t c => .ok (.lit (.str t.lexeme) t) c
      | .perr e c => .perr e c | .crash => .crash | .fuelOut => .fuelOut
    else
    match matchCurrentToken toks cur4 [.LPAREN] with
    | .perr e c => .perr e c | .crash => .crash | .fuelOut => .fuelOut
    | .ok bP cur5 =>
    if bP then
      match expressionFn fuel toks cur5 with
      | .perr e c => .perr e c | .crash => .crash | .fuelOut => .fuelOut
      | .ok e cur6 =>
        match consumeMatchingToken toks cur6 .RPAREN .expectedRParen with
        | .ok _ cur7 => .ok (.grouping e) cur7
        | .perr e c => .perr e c | .crash => .crash | .fuelOut => .fuelOut
    else
      match getCurrentToken toks cur5 with
      | some t => .perr ⟨t, .unexpectedToken t.lexeme⟩ cur5
      | none => .crash
termination_by structural fuel _ _ => fuel

/-- unary from parser/expression.go. -/
def unaryFn : Nat → List Token → Nat → POut Expr
  | 0, _, _ => .fuelOut
  | fuel + 1, toks, cur =>
    match matchCurrentToken toks cur [.NEGATE, .SUBTRACT] with
    | .perr e c => .perr e c | .crash => .crash | .fuelOut => .fuelOut
    | .ok b cur1 =>
    if b then
      match prevTok toks cur1 with
      | .perr e c => .perr e c | .crash => .crash | .fuelOut => .fuelOut
      | .ok op cur1 =>
        match unaryFn fuel toks cur1 with
        | .ok right cur2 => .ok (.unary op right) cur2
        | .perr e c => .perr e c | .crash => .crash | .fuelOut => .fuelOut
    else primaryFn fuel toks cur1
termination_by structural fuel _ _ => fuel

/-- The iteration of factor: (MULTI|DIVIDE) unary, left-associative. -/
def factorLoop : Nat → List Token → Nat → Expr → POut Expr
  | 0, _, _, _ => .fuelOut
  | fuel + 1, toks, cur, e =>
    match matchCurrentToken toks cur [.MULTI, .DIVIDE] with
    | .perr er c => .perr er c | .crash => .crash | .fuelOut => .fuelOut
    | .ok b cur1 =>
    if b then
      match prevTok toks cur1 with
      | .perr er c => .perr er c | .crash => .crash | .fuelOut => .fuelOut
      | .ok op cur1 =>
        match unaryFn fuel toks cur1 with
        | .perr er c => .perr er c | .crash => .crash | .fuelOut => .fuelOut
        | .ok right cur2 => factorLoop fuel toks cur2 (.binary e op right)
    else .ok e cur1
termination_by structural fuel _ _ _ => fuel

/-- factor from parser/expression.go. -/
def factorFn : Nat → List Token → Nat → POut Expr
  | 0, _, _ => .fuelOut
  | fuel + 1, toks, cur =>
    match unaryFn fuel toks cur with
    | .perr e c => .perr e c | .crash => .crash | .fuelOut => .fuelOut
    | .ok e cur1 => factorLoop fuel toks cur1 e
termination_by structural fuel _ _ => fuel

/-- The iteration of term: (ADD|SUBTRACT) factor, left-associative. -/
def termLoop : Nat → List Token → Nat → Expr → POut Expr
  | 0, _, _, _ => .fuelOut
  | fuel + 1, toks, cur, e =>
    match matchCurrentToken toks cur [.ADD, .SUBTRACT] with
    | .perr er c => .perr er c | .crash => .crash | .fuelOut => .fuelOut
    | .ok b cur1 =>
    if b then
      match prevTok toks cur1 with
      | .perr er c => .perr er c | .crash => .crash | .fuelOut => .fuelOut
      | .ok op cur1 =>
        match factorFn fuel toks cur1 with
        | .perr er c => .perr er c | .crash => .crash | .fuelOut => .fuelOut
        | .ok right cur2 => termLoop fuel toks cur2 (.binary e op right)
    else .ok e cur1
termination_by structural fuel _ _ _ => fuel

/-- term from parser/expression.go. -/
def termFn : Nat → List Token → Nat → POut Expr
  | 0, _, _ => .fuelOut
  | fuel + 1, toks, cur =>
    match factorFn fuel toks cur with
    | .perr e c => .perr e c | .crash => .crash | .fuelOut => .fuelOut
    | .ok e cur1 => termLoop fuel toks cur1 e
termination_by structural fuel _ _ => fuel

/-- The iteration of comparison: (GTE|GREATER|LTE|LESS) term. -/
def comparisonLoop : Nat → List Token → Nat → Expr → POut Expr
  | 0, _, _, _ => .fuelOut
  | fuel + 1, toks, cur, e =>
    match matchCurrentToken toks cur [.GTE, .GREATER, .LTE, .LESS] with
    | .perr er c => .perr er c | .crash => .crash | .fuelOut => .fuelOut
    | .ok b cur1 =>
    if b then
      match prevTok toks cur1 with
      | .perr er c => .perr er c | .crash => .crash | .fuelOut => .fuelOut
      | .ok op cur1 =>
        match termFn fuel toks cur1 with
        | .perr er c => .perr er c | .crash => .crash | .fuelOut => .fuelOut
        | .ok right cur2 => comparisonLoop fuel toks cur2 (.binary e op right)
    else .ok e cur1
termination_by structural fuel _ _ _ => fuel

/-- comparison from parser/expression.go. -/
def comparisonFn : Nat → List Token → Nat → POut Expr
  | 0, _, _ => .fuelOut
  | fuel + 1, toks, cur =>
    match termFn fuel toks cur with
    | .perr e c => .perr e c | .crash => .crash | .fuelOut => .fuelOut
    | .ok e cur1 => comparisonLoop fuel toks cur1 e
termination_by structural fuel _ _ => fuel

/-- The iteration of equality: (EQUAL|UNEQUAL) comparison. -/
def equalityLoop : Nat → List Token → Nat → Expr → POut Expr
  | 0, _, _, _ => .fuelOut
  | fuel + 1, toks, cur, e =>
    match matchCurrentToken toks cur [.EQUAL, .UNEQUAL] with
    | .perr er c => .perr er c | .crash => .crash | .fuelOut => .fuelOut
    | .ok b cur1 =>
    if b then
      match prevTok toks cur1 with
      | .perr er c => .perr er c | .crash => .crash | .fuelOut => .fuelOut
      | .ok op cur1 =>
        match comparisonFn fuel toks cur1 with
        | .perr er c => .perr er c | .crash => .crash | .fuelOut => .fuelOut
        | .ok right cur2 => equalityLoop fuel toks cur2 (.binary e op right)
    else .ok e cur1
termination_by structural fuel _ _ _ => fuel

/-- equality from parser/expression.go. -/
def equalityFn : Nat → List Token → Nat → POut Expr
  | 0, _, _ => .fuelOut
  | fuel + 1, toks, cur =>
    match comparisonFn fuel toks cur with
    | .perr e c => .perr e c | .crash => .crash | .fuelOut => .fuelOut
    | .ok e cur1 => equalityLoop fuel toks cur1 e
termination_by structural fuel _ _ => fuel

/-- assignment from parser/expression.go: parse an equality; on an ASSIGN
token, recursively parse the right-hand side (right-associative) and
validate that the left side is a VariableExpression — any other shape is
the unable-to-assign parse error naming the ASSIGN token lexeme. -/
def assignmentFn : Nat → List Token → Nat → POut Expr
  | 0, _, _ => .fuelOut
  | fuel + 1, toks, cur =>
    match equalityFn fuel toks cur with
    | .perr er c => .perr er c | .crash => .crash | .fuelOut => .fuelOut
    | .ok e cur1 =>
    match matchCurrentToken toks cur1 [.ASSIGN] with
    | .perr er c => .perr er c | .crash => .crash | .fuelOut => .fuelOut
    | .ok b cur2 =>
    if b then
      match prevTok toks cur2 with
      | .perr er c => .perr er c | .crash => .crash | .fuelOut => .fuelOut
      | .ok equalsTok cur2 =>
        match assignmentFn fuel toks cur2 with
        | .perr er c => .perr er c | .crash => .crash | .fuelOut => .fuelOut
        | .ok v cur3 =>
          match e with
          | .variable nameTok => .ok (.assign nameTok v) cur3
          | _ => .perr ⟨equalsTok, .unableToAssign equalsTok.lexeme⟩ cur3
    else .ok e cur2
termination_by structural fuel _ _ => fuel

/-- expression from parser/expression.go: the entry point, equal to
assignment. -/
def expressionFn : Nat → List Token → Nat → POut Expr
  | 0, _, _ => .fuelOut
  | fuel + 1, toks, cur => assignmentFn fuel toks cur
termination_by structural fuel _ _ => fuel

end

mutual

/-- declaration from parser/statement.go: try SET (variable declaration)
else statement; on a parse error, synchronize and re-raise the error (the
panic-mode recovery wrapper). -/
def declarationFn : Nat → List Token → Nat → POut Stmt
  | 0, _, _ => .fuelOut
  | fuel + 1, toks, cur =>
    match matchCurrentToken toks cur [.SET] with
    | .perr er c => .perr er c | .crash => .crash | .fuelOut => .fuelOut
    | .ok b cur1 =>
    match (if b then variableDeclarationFn fuel toks cur1 else statementFn fuel toks cur1) with
    | .ok s cur2 => .ok s cur2
    | .perr e cur2 =>
      match synchronize toks fuel cur2 with
      | .ok _ cur3 => .perr e cur3
      | .perr _ _ => .crash
      | .crash => .crash
      | .fuelOut => .fuelOut
    | .crash => .crash
    | .fuelOut => .fuelOut
termination_by structural fuel _ _ => fuel

/-- variableDeclaration from parser/statement.go: SET IDENTIFIER with an
optional = expression initializer.  No trailing newline is consumed. -/
def variableDeclarationFn : Nat → List Token → Nat → POut Stmt
  | 0, _, _ => .fuelOut
  | fuel + 1, toks, cur =>
    match consumeMatchingToken toks cur .IDENTIFIER .expectIdentifierAfterSet with
    | .perr er c => .perr er c | .crash => .crash | .fuelOut => .fuelOut
    | .ok ident cur1 =>
    match matchCurrentToken toks cur1 [.ASSIGN] with
    | .perr er c => .perr er c | .crash => .crash | .fuelOut => .fuelOut
    | .ok b cur2 =>
    if b then
      match expressionFn fuel toks cur2 with
      | .perr er c => .perr er c | .crash => .crash | .fuelOut => .fuelOut
      | .ok e cur3 => .ok (.varDecl ident (some e)) cur3
    else .ok (.varDecl ident none) cur2

/-- statement from parser/statement.go (newest revision): IF dispatches
to the if-statement rule, FOR to the generic block rule, anything else to
an expression statement. -/
def statementFn : Nat → List Token → Nat → POut Stmt
  | 0, _, _ => .fuelOut
  | fuel + 1, toks, cur =>
    match matchCurrentToken toks cur [.IF] with
    | .perr er c => .perr er c | .crash => .crash | .fuelOut => .fuelOut
    | .ok bIf cur1 =>
    if bIf then ifStatementFn fuel toks cur1
    else
      match matchCurrentToken toks cur1 [.FOR] with
      | .perr er c => .perr er c | .crash => .crash | .fuelOut => .fuelOut
      | .ok bFor cur2 =>
      if bFor then blockStatementFn fuel toks cur2
      else expressionStatementFn fuel toks cur2
termination_by structural fuel _ _ => fuel

/-- expressionStatement from parser/statement.go: an expression followed
by a mandatory NLINE terminator. -/
def expressionStatementFn : Nat → List Token → Nat → POut Stmt
  | 0, _, _ => .fuelOut
  | fuel + 1, toks, cur =>
    match expressionFn fuel toks cur with
    | .perr er c => .perr er c | .crash => .crash | .fuelOut => .fuelOut
    | .ok e cur1 =>
    match consumeMatchingToken toks cur1 .NLINE .expectedNewlineAfterExpression with
    | .ok _ cur2 => .ok (.exprStmt e) cur2
    | .perr er c => .perr er c | .crash => .crash | .fuelOut => .fuelOut

/-- collectStatements from parser/statement.go: parse declarations until
end of input or a terminator token (checked in that order); a declaration
error propagates up. -/
def collectStatementsFn : Nat → List Token → List TokenType → Nat → POut (List Stmt)
  | 0, _, _, _ => .fuelOut
  | fuel + 1, toks, terms, cur =>
    match toks.get? cur with
    | none => .crash
    | some t =>
      if t.type = .EOF then .ok [] cur
      else
        match checkCurrentToken toks cur terms with
        | none => .crash
        | some true => .ok [] cur
        | some false =>
          match declarationFn fuel toks cur with
          | .perr er c => .perr er c | .crash => .crash | .fuelOut => .fuelOut
          | .ok s cur1 =>
            match collectStatementsFn fuel toks terms cur1 with
            | .perr er c => .perr er c | .crash => .crash | .fuelOut => .fuelOut
            | .ok rest cur2 => .ok (s :: rest) cur2
termination_by structural fuel _ _ _ => fuel

/-- blockStatement from parser/statement.go: collect declarations with no
terminators, then require END. -/
def blockStatementFn : Nat → List Token → Nat → POut Stmt
  | 0, _, _ => .fuelOut
  | fuel + 1, toks, cur =>
    match collectStatementsFn fuel toks [] cur with
    | .perr er c => .perr er c | .crash => .crash | .fuelOut => .fuelOut
    | .ok sts cur1 =>
    match consumeMatchingToken toks cur1 .END .endExpectedAfterBlock with
    | .ok _ cur2 => .ok (.block sts) cur2
    | .perr er c => .perr er c | .crash => .crash | .fuelOut => .fuelOut
termination_by structural fuel _ _ => fuel

/-- ifStatement from parser/statement.go (the IF or ELIF token is already
consumed): condition expression, NLINE, then-branch statements collected
up to ELIF/ELSE/END and wrapped in a BlockStatement; an ELIF recursively
re-enters this rule as the else branch (the nested call consumes the
final END); an ELSE consumes NLINE, collects to END and wraps in a block;
every chain ends with exactly one END consumed by the call that reaches
it. -/
def ifStatementFn : Nat → List Token → Nat → POut Stmt
  | 0, _, _ => .fuelOut
  | fuel + 1, toks, cur =>
    match expressionFn fuel toks cur with
    | .perr er c => .perr er c | .crash => .crash | .fuelOut => .fuelOut
    | .ok cond cur1 =>
    match consumeMatchingToken toks cur1 .NLINE .expectedNewlineAfterIfCondition with
    | .perr er c => .perr er c | .crash => .crash | .fuelOut => .fuelOut
    | .ok _ cur2 =>
    match collectStatementsFn fuel toks [.ELIF, .ELSE, .END] cur2 with
    | .perr er c => .perr er c | .crash => .crash | .fuelOut => .fuelOut
    | .ok thenSts cur3 =>
    match matchCurrentToken toks cur3 [.ELIF] with
    | .perr er c => .perr er c | .crash => .crash | .fuelOut => .fuelOut
    | .ok bElif cur4 =>
    if bElif then
      match ifStatementFn fuel toks cur4 with
      | .perr er c => .perr er c | .crash => .crash | .fuelOut => .fuelOut
      | .ok elseB cur5 => .ok (.ifS cond (.block thenSts) (some elseB)) cur5
    else
      match matchCurrentToken toks cur4 [.ELSE] with
      | .perr er c => .perr er c | .crash => .crash | .fuelOut => .fuelOut
      | .ok bElse cur5 =>
      if bElse then
        match consumeMatchingToken toks cur5 .NLINE .expectedNewlineAfterElse with
        | .perr er c => .perr er c | .crash => .crash | .fuelOut => .fuelOut
        | .ok _ cur6 =>
        match collectStatementsFn fuel toks [.END] cur6 with
        | .perr er c => .perr er c | .crash => .crash | .fuelOut => .fuelOut
        | .ok elseSts cur7 =>
        match consumeMatchingToken toks cur7 .END .endExpectedAfterIfBlock with
        | .ok _ cur8 => .ok (.ifS cond (.block thenSts) (some (.block elseSts))) cur8
        | .perr er c => .perr er c | .crash => .crash | .fuelOut => .fuelOut
      else
        match consumeMatchingToken toks cur5 .END .endExpectedAfterIfBlock with
        | .ok _ cur6 => .ok (.ifS cond (.block thenSts) none) cur6
        | .perr er c => .perr er c | .crash => .crash | .fuelOut => .fuelOut
termination_by structural fuel _ _ => fuel

end

/-- Outcome of Parse: a normal return (statement list or nil, plus the
collected error list), the out-of-range panic, or fuel exhaustion. -/
inductive ParseOut
  | res (stmts : Option (List Stmt)) (errs : List ParseError)
  | crash
  | fuelOut
deriving DecidableEq

/-- Intermediate outcome of the Parse loop. -/
inductive PLoopOut
  | acc (stmts : List Stmt) (errs : List ParseError)
  | crash
  | fuelOut
deriving DecidableEq

/-- The loop of Parse from parser.go: while not at end (current-token
read is the crash point), run declaration; successes are appended to the
statement list, parse errors to the error list, and the loop continues
either way. -/
def parseLoop : Nat → List Token → Nat → PLoopOut
  | 0, _, _ => .fuelOut
  | fuel + 1, toks, cur =>
    match toks.get? cur with
    | none => .crash
    | some t =>
      if t.type = .EOF then .acc [] []
      else
        match declarationFn fuel toks cur with
        | .ok s cur1 =>
          match parseLoop fuel toks cur1 with
          | .acc sts errs => .acc (s :: sts) errs
          | .crash => .crash
          | .fuelOut => .fuelOut
        | .perr e cur1 =>
          match parseLoop fuel toks cur1 with
          | .acc sts errs => .acc sts (e :: errs)
          | .crash => .crash
          | .fuelOut => .fuelOut
        | .crash => .crash
        | .fuelOut => .fuelOut

/-- Parse from parser.go: run the loop; if any errors were collected,
return nil statements together with all of them joined; otherwise return
the statement list and no error. -/
def parseRun (fuel : Nat) (toks : List Token) : ParseOut :=
  match parseLoop fuel toks 0 with
  | .acc stmts errs => if errs = [] then .res (some stmts) [] else .res none errs
  | .crash => .crash
  | .fuelOut => .fuelOut

/-! ### Concrete fixtures used by the claim theorems -/

/-- A token with the given type and lexeme at a fixed dummy position and
no literal payload. -/
def tok (tt : TokenType) (lex : String) : Token :=
  { type := tt, lexeme := lex, line := 1, file := "t", col := 1, literal := .nil }

/-- A NUMBER token carrying an integer literal. -/
def numTok (n : Int) (lex : String) : Token :=
  { type := .NUMBER, lexeme := lex, line := 1, file := "t", col := 1, literal := .int n }

/-- The execution log of a result. -/
def logOf (r : ExecRes) : List Stmt :=
  match r with
  | .ok _ log => log
  | .err _ _ log => log
  | .div => []

/-- Token sequence of the program SET x, then x = 5, then x (each line
terminated by NLINE), as the scanner would deliver it. -/
def c2Tokens : List Token :=
  [tok .SET "SET", tok .IDENTIFIER "x", tok .NLINE "\n",
   tok .IDENTIFIER "x", tok .ASSIGN "=", numTok 5 "5", tok .NLINE "\n",
   tok .IDENTIFIER "x", tok .NLINE "\n", tok .EOF ""]

/-- Token sequence of the bare expression statement x = 5. -/
def c2ExprTokens : List Token :=
  [tok .IDENTIFIER "x", tok .ASSIGN "=", numTok 5 "5", tok .NLINE "\n", tok .EOF ""]

/-- Token sequence with two malformed statements, each a lone right
parenthesis terminated by a newline. -/
def c5Tokens : List Token :=
  [tok .RPAREN ")", tok .NLINE "\n", tok .RPAREN ")", tok .NLINE "\n", tok .EOF ""]


/-- The identifier token used by the scoping programs. -/
def xTok : Token := tok .IDENTIFIER "x"

/-- The C3 program at AST level: SET x = 1, a block containing SET x = 2,
then an expression statement referencing x. -/
def c3Prog : List Stmt :=
  [.varDecl xTok (some (.lit (.int 1) (numTok 1 "1"))),
   .block [.varDecl xTok (some (.lit (.int 2) (numTok 2 "2")))],
   .exprStmt (.variable xTok)]

/-- The C3 failure variant: SET x = 1, then a block whose body fails with
a division by zero. -/
def c3FailProg : List Stmt :=
  [.varDecl xTok (some (.lit (.int 1) (numTok 1 "1"))),
   .block [.exprStmt (.binary (.lit (.int 5) (numTok 5 "5")) (tok .DIVIDE "/")
     (.lit (.int 0) (numTok 0 "0")))]]

/-! ### Claims -/

/-- C2: the spec and the code documentation promise that assigning to an
undeclared name fails with an undefined-variable *runtime* error while
SET x followed by x = 5 succeeds and a later read observes 5.  The code
cannot deliver either behaviour: primary() parses an IDENTIFIER into a
LiteralExpression carrying the lexeme string and never constructs a
VariableExpression, so assignment() rejects every assignment target with
the unable-to-assign *parse* error, and Parse returns nil statements —
the program never reaches the interpreter (additionally, the newline
after SET x is itself a parse error because variableDeclaration consumes
no NLINE).  The conjuncts evaluate the parser at the failing input. -/
theorem c2_assignment_is_parse_error :
    parseRun 200 c2Tokens = .res none [⟨tok .NLINE "\n", .unexpectedToken "\n"⟩] ∧
    assignmentFn 100 c2ExprTokens 0 = .perr ⟨tok .ASSIGN "=", .unableToAssign "="⟩ 3 ∧
    primaryFn 100 c2ExprTokens 0 = .ok (.lit (.str "x") (tok .IDENTIFIER "x")) 1 := by
  refine ⟨by decide, by decide, by decide⟩

/-- C3: executing SET x = 1, a block containing SET x = 2, then a
reference to x leaves x bound to 1 (the shadowing definition lives in the
discarded child scope) and the final reference evaluates to 1; the
environment active before the block is restored on exit whether the body
succeeds or fails; the block case of the interpreter always runs its body
in a fresh child environment (empty map, non-nil Enclosing) and returns
the entry environment in the ok and err outcomes alike. -/
theorem c3_block_scoping_restores_outer_binding :
    (∀ sts env, execStmt (.block sts) env =
      match execList sts { map := [], selfEnclosing := true } with
      | .ok _ log => .ok env (Stmt.block sts :: log)
      | .err m _ log => .err m env (Stmt.block sts :: log)
      | .div => .div) ∧
    interpret c3Prog rootEnv =
      .ok { map := [("x", Value.int 1)], selfEnclosing := false }
        [.varDecl xTok (some (.lit (.int 1) (numTok 1 "1"))),
         .block [.varDecl xTok (some (.lit (.int 2) (numTok 2 "2")))],
         .varDecl xTok (some (.lit (.int 2) (numTok 2 "2"))),
         .exprStmt (.variable xTok)] ∧
    evalExpr (.variable xTok) { map := [("x", Value.int 1)], selfEnclosing := false } =
      .ok (.int 1) { map := [("x", Value.int 1)], selfEnclosing := false } ∧
    interpret c3FailProg rootEnv =
      .err .divisionByZero { map := [("x", Value.int 1)], selfEnclosing := false }
        [.varDecl xTok (some (.lit (.int 1) (numTok 1 "1"))),
         .block [.exprStmt (.binary (.lit (.int 5) (numTok 5 "5")) (tok .DIVIDE "/")
           (.lit (.int 0) (numTok 0 "0")))],
         .exprStmt (.binary (.lit (.int 5) (numTok 5 "5")) (tok .DIVIDE "/")
           (.lit (.int 0) (numTok 0 "0")))] := by
  refine ⟨fun sts env => rfl, by decide, by decide, by decide⟩

/-- C5: evaluating the parser at a token stream with two malformed
statements, each terminated by a newline.  synchronize discards the
offending token and then every following token — including both NLINE
boundaries and the second malformed statement — until EOF, because the
comparison constant is the two-character raw string backslash-n, which
never equals an NLINE token's one-character lexeme; consequently Parse
reports a single error where the claim expects the discard to stop at the
first newline (and a second error for the second statement). -/
theorem c5_synchronize_discards_past_newline :
    synchronize c5Tokens 100 0 = .ok () 4 ∧
    parseRun 100 c5Tokens = .res none [⟨tok .RPAREN ")", .unexpectedToken ")"⟩] ∧
    syncNewline ≠ "\n" ∧ (tok .NLINE "\n").lexeme = "\n" := by
  refine ⟨by decide, by decide, by decide, by decide⟩

/-- C6 counterexample: with a nil left operand and the present value 5 on
the right, == evaluates to true, not false — contradicting the claim that
the result of == is true exactly when both operands are nil. -/
theorem c6_counterexample :
    evalExpr (.binary (.lit .nil (tok .NLINE "\n")) (tok .EQUAL "==")
        (.lit (.int 5) (numTok 5 "5"))) rootEnv =
      .ok (.bool true) rootEnv ∧
    Value.bool true ≠ Value.bool false := by
  refine ⟨by decide, by decide⟩

/-- C6 amended: when at least one operand is nil, only == and != yield a
value (every other operator is the nil-only-equality runtime error), but
== is true and != false *unconditionally* — the other operand is never
inspected, so nil == present-value is true. -/
theorem c6_nil_operand_dispatch (l r : Value) (op : TokenType)
    (h : l = .nil ∨ r = .nil) :
    evalBinaryOp l r op =
      (if op = .EQUAL then .ok (.bool true)
       else if op = .UNEQUAL then .ok (.bool false)
       else .error .nilOnlyEquality) := by
  have h1 : evalBinaryOp l r op = executeNil op := by
    rcases h with rfl | rfl
    · cases r <;> rfl
    · cases l <;> rfl
  have h2 : executeNil op =
      (if op = .EQUAL then Except.ok (Value.bool true)
       else if op = .UNEQUAL then Except.ok (Value.bool false)
       else Except.error Rte.nilOnlyEquality) := by
    cases op <;> rfl
  exact h1.trans h2

/-- C6 witness: the amended theorem at nil == 5 (true), nil != nil
(false) and a nil operand under + (error). -/
theorem c6_witness :
    evalBinaryOp .nil (.int 5) .EQUAL = .ok (.bool true) ∧
    evalBinaryOp .nil .nil .UNEQUAL = .ok (.bool false) ∧
    evalBinaryOp (.str "a") .nil .ADD = .error .nilOnlyEquality := by
  refine ⟨?_, ?_, ?_⟩
  · have := c6_nil_operand_dispatch .nil (.int 5) .EQUAL (Or.inl rfl)
    simpa using this
  · have := c6_nil_operand_dispatch .nil .nil .UNEQUAL (Or.inl rfl)
    simpa using this
  · have := c6_nil_operand_dispatch (.str "a") .nil .ADD (Or.inr rfl)
    simpa using this

/-- C7: for numeric operands (both convert through toFloat), division
dispatches to executeNumeric, which raises the division-by-zero runtime
error when the divisor is zero — before any division happens, so no
infinity, NaN or zero value can be produced — and returns the float
quotient otherwise. -/
theorem c7_division_by_zero_is_error (l r : Value) (lq rq : ℚ)
    (hl : toFloat l = some lq) (hr : toFloat r = some rq) :
    evalBinaryOp l r .DIVIDE =
      (if rq = 0 then .error .divisionByZero else .ok (.float (lq / rq))) := by
  cases l <;> cases r <;> simp_all [toFloat, evalBinaryOp, executeNumeric]

/-- C7 witness: 5 / 0 is the division-by-zero runtime error and 5 / 2 is
the float 5/2. -/
theorem c7_witness :
    evalBinaryOp (.int 5) (.int 0) .DIVIDE = .error .divisionByZero ∧
    evalBinaryOp (.int 5) (.int 2) .DIVIDE = .ok (.float (5 / 2 : ℚ)) := by
  constructor
  · have := c7_division_by_zero_is_error (.int 5) (.int 0) 5 0 rfl rfl
    simpa using this
  · have := c7_division_by_zero_is_error (.int 5) (.int 2) 5 2 rfl rfl
    rw [this]
    norm_num

/-- C8 counterexample: on the token sequence [SET, EOF] Parse panics with
an index-out-of-range (synchronize advances past the EOF token and the
loop's isAtEnd then indexes one past the end of the token slice), so it
returns neither a statement list nor an error collection. -/
theorem c8_counterexample :
    parseRun 50 [tok .SET "SET", tok .EOF ""] = .crash ∧
    (∀ stmts errs, (ParseOut.crash : ParseOut) ≠ .res stmts errs) := by
  refine ⟨by decide, fun stmts errs h => ParseOut.noConfusion h⟩

/-- C8 amended: whenever Parse returns normally (no out-of-range panic,
which IS reachable, e.g. on [SET, EOF]), it is all-or-nothing: a
statement list is returned exactly when the collected error list is
empty, and nil statements exactly when it is non-empty. -/
theorem c8_parse_all_or_nothing (fuel : Nat) (toks : List Token)
    (stmts : Option (List Stmt)) (errs : List ParseError)
    (h : parseRun fuel toks = .res stmts errs) :
    (stmts.isSome ↔ errs = []) ∧ (stmts = none ↔ errs ≠ []) := by
  unfold parseRun at h
  split at h
  · split at h
    · injection h with h1 h2
      subst h1; subst h2
      simp
    · injection h with h1 h2
      subst h1; subst h2
      simp_all
  · exact ParseOut.noConfusion h
  · exact ParseOut.noConfusion h

/-- C8 witness: the amended theorem at the empty program (EOF only),
where Parse returns an empty statement list and no errors. -/
theorem c8_witness :
    parseRun 10 [tok .EOF ""] = .res (some []) [] ∧
    ((some ([] : List Stmt)).isSome ↔ ([] : List ParseError) = []) := by
  have h : parseRun 10 [tok .EOF ""] = .res (some []) [] := by decide
  exact ⟨h, (c8_parse_all_or_nothing 10 [tok .EOF ""] (some []) [] h).1⟩

/-- C10: VisitBinaryExpr evaluates the left operand first; the binary
case of the evaluator is exactly left-then-right sequencing, and if the
left operand evaluates to an error, that error (with the environment
state after the left evaluation) is returned unchanged for *every* right
operand expression — the right operand is never evaluated and no operator
is applied. -/
theorem c10_binary_left_error_short_circuit (l : Expr) (opTok : Token) (env : Environment)
    (e : Rte) (env1 : Environment) (h : evalExpr l env = .err e env1) :
    (∀ r : Expr, evalExpr (.binary l opTok r) env = .err e env1) ∧
    (∀ r : Expr, evalExpr (.binary l opTok r) env =
      match evalExpr l env with
      | .err e2 env2 => .err e2 env2
      | .div => .div
      | .ok lv env2 =>
        match evalExpr r env2 with
        | .err e2 env3 => .err e2 env3
        | .div => .div
        | .ok rv env3 =>
          match evalBinaryOp lv rv opTok.type with
          | .ok v => .ok v env3
          | .error e2 => .err e2 env3) := by
  constructor
  · intro r
    simp only [evalExpr, h]
  · intro r
    rfl

/-- C10 witness: with left operand 5 / 0 (which errors) and right operand
the literal 7, the whole binary addition returns the division-by-zero
error unchanged. -/
theorem c10_witness :
    evalExpr (.binary
        (.binary (.lit (.int 5) (numTok 5 "5")) (tok .DIVIDE "/") (.lit (.int 0) (numTok 0 "0")))
        (tok .ADD "+") (.lit (.int 7) (numTok 7 "7"))) rootEnv =
      .err .divisionByZero rootEnv := by
  have h : evalExpr (.binary (.lit (.int 5) (numTok 5 "5")) (tok .DIVIDE "/")
      (.lit (.int 0) (numTok 0 "0"))) rootEnv = .err .divisionByZero rootEnv := by decide
  exact (c10_binary_left_error_short_circuit _ (tok .ADD "+") rootEnv .divisionByZero
    rootEnv h).1 (.lit (.int 7) (numTok 7 "7"))

/-- C4 counterexample: scanning the source with two bare ampersands,
ScanSource reports only the first error and stops at index 1, although a
second lexical error exists at index 2 (scanToken there also errs); the
claim expected both errors in one pass. -/
theorem c4_counterexample :
    scanRun "& &" "f" = .failed .unexpectedAmp 1 [] ∧
    (scanToken "& &".data 2 1 false).err = some .unexpectedAmp ∧
    (1 : Nat) < "& &".data.length := by
  refine ⟨by decide, by decide, by decide⟩

/-- C4 amended: scanning does NOT continue past a lexical error.  The
ScanSource loop returns the error as soon as scanToken produces one:
whenever the scan position is in range and scanToken errs there, the
whole pass fails with exactly that first error — for every remaining
fuel, i.e. however much input is left — and no further errors are
collected. -/
theorem c4_scan_stops_at_first_error (fuel : Nat) (src : List Char) (name : String)
    (cur line : Nat) (dk : Bool) (e : ScanErr)
    (hlt : cur < src.length)
    (herr : (scanToken src cur line dk).err = some e) :
    scanLoop (fuel + 1) src name cur line dk =
      .failed e (scanToken src cur line dk).cur [] := by
  rcases hs : scanToken src cur line dk with ⟨tt, lit, err, cur2, line2, dk2⟩
  rw [hs] at herr
  dsimp only at herr
  subst herr
  simp [scanLoop, hlt, hs]

/-- C4 witness: the amended theorem on the two-ampersand source at
position 0 with ample fuel. -/
theorem c4_witness :
    scanLoop 4 "& &".data "f" 0 1 false =
      .failed .unexpectedAmp (scanToken "& &".data 0 1 false).cur [] ∧
    (scanToken "& &".data 0 1 false).cur = 1 :=
  ⟨c4_scan_stops_at_first_error 3 "& &".data "f" 0 1 false .unexpectedAmp
    (by decide) (by decide), by decide⟩

/-! ### C1 fixtures: IF chains parsed by the real if-statement rule.
The leading IF token has already been consumed by statement(), so the
token lists start at the condition. -/

/-- IF FALSE / 1 / ELIF TRUE / 2 / ELSE / 3 / END, after the IF token. -/
def c1ToksA : List Token :=
  [tok .FALSE "FALSE", tok .NLINE "\n", numTok 1 "1", tok .NLINE "\n",
   tok .ELIF "ELIF", tok .TRUE "TRUE", tok .NLINE "\n", numTok 2 "2", tok .NLINE "\n",
   tok .ELSE "ELSE", tok .NLINE "\n", numTok 3 "3", tok .NLINE "\n",
   tok .END "END", tok .EOF ""]

/-- IF FALSE / 1 / ELSE / 3 / END, after the IF token. -/
def c1ToksB : List Token :=
  [tok .FALSE "FALSE", tok .NLINE "\n", numTok 1 "1", tok .NLINE "\n",
   tok .ELSE "ELSE", tok .NLINE "\n", numTok 3 "3", tok .NLINE "\n",
   tok .END "END", tok .EOF ""]

/-- IF FALSE / 1 / END, after the IF token. -/
def c1ToksC : List Token :=
  [tok .FALSE "FALSE", tok .NLINE "\n", numTok 1 "1", tok .NLINE "\n",
   tok .END "END", tok .EOF ""]

/-- The expression statements of the three branches. -/
def c1Ex1 : Stmt := .exprStmt (.lit (.int 1) (numTok 1 "1"))

/-- The ELIF branch body statement. -/
def c1Ex2 : Stmt := .exprStmt (.lit (.int 2) (numTok 2 "2"))

/-- The ELSE branch body statement. -/
def c1Ex3 : Stmt := .exprStmt (.lit (.int 3) (numTok 3 "3"))

/-- The nested if produced for the ELIF arm of chain A. -/
def c1InnerIf : Stmt :=
  .ifS (.lit (.bool true) (tok .TRUE "TRUE")) (.block [c1Ex2]) (some (.block [c1Ex3]))

/-- The AST of chain A. -/
def c1ExpectedA : Stmt :=
  .ifS (.lit (.bool false) (tok .FALSE "FALSE")) (.block [c1Ex1]) (some c1InnerIf)

/-- The AST of chain B. -/
def c1ExpectedB : Stmt :=
  .ifS (.lit (.bool false) (tok .FALSE "FALSE")) (.block [c1Ex1]) (some (.block [c1Ex3]))

/-- The AST of chain C. -/
def c1ExpectedC : Stmt :=
  .ifS (.lit (.bool false) (tok .FALSE "FALSE")) (.block [c1Ex1]) none

/-- C1 (if-statement execution Modelled from the spec, the sources ship
no VisitIfStatement): an if statement evaluates its condition and, by the
truthiness coercion, executes exactly one of then-branch / else-branch /
neither — general equations for the three cases, then the three concrete
scenarios with ASTs produced by the real if-statement parse rule: chain A
(IF FALSE / ELIF TRUE / ELSE) began execution of exactly the ELIF
branch's statement — 2 is in the log, 1 and 3 are not; chain B (both arms
via ELSE) executes exactly the ELSE branch; chain C (no ELSE, condition
false) executes no branch statement and yields no error. -/
theorem c1_if_executes_exactly_one_branch :
    (∀ c t eb env v env1, evalExpr c env = .ok v env1 → isTruthy v = true →
      execStmt (.ifS c t eb) env = prependLog (.ifS c t eb) (execStmt t env1)) ∧
    (∀ c t e env v env1, evalExpr c env = .ok v env1 → isTruthy v = false →
      execStmt (.ifS c t (some e)) env =
        prependLog (.ifS c t (some e)) (execStmt e env1)) ∧
    (∀ c t env v env1, evalExpr c env = .ok v env1 → isTruthy v = false →
      execStmt (.ifS c t none) env = .ok env1 [Stmt.ifS c t none]) ∧
    ifStatementFn 100 c1ToksA 0 = .ok c1ExpectedA 14 ∧
    execStmt c1ExpectedA rootEnv =
      .ok rootEnv [c1ExpectedA, c1InnerIf, .block [c1Ex2], c1Ex2] ∧
    (c1Ex2 ∈ logOf (execStmt c1ExpectedA rootEnv) ∧
     c1Ex1 ∉ logOf (execStmt c1ExpectedA rootEnv) ∧
     c1Ex3 ∉ logOf (execStmt c1ExpectedA rootEnv)) ∧
    ifStatementFn 100 c1ToksB 0 = .ok c1ExpectedB 9 ∧
    execStmt c1ExpectedB rootEnv =
      .ok rootEnv [c1ExpectedB, .block [c1Ex3], c1Ex3] ∧
    ifStatementFn 100 c1ToksC 0 = .ok c1ExpectedC 5 ∧
    execStmt c1ExpectedC rootEnv = .ok rootEnv [c1ExpectedC] := by
  refine ⟨?_, ?_, ?_, by decide, by decide, by decide, by decide, by decide,
    by decide, by decide⟩
  · intro c t eb env v env1 h ht
    conv_lhs => unfold execStmt
    rw [h]
    dsimp only
    rw [if_pos ht]
  · intro c t e env v env1 h ht
    conv_lhs => unfold execStmt
    rw [h]
    dsimp only
    rw [if_neg (by simp [ht])]
  · intro c t env v env1 h ht
    conv_lhs => unfold execStmt
    rw [h]
    dsimp only
    rw [if_neg (by simp [ht])]

/-- C1 witness: the general truthy-case equation at condition TRUE, a
literal then-branch and no else. -/
theorem c1_witness :
    execStmt (.ifS (.lit (.bool true) (tok .TRUE "TRUE")) c1Ex1 none) rootEnv =
      prependLog (.ifS (.lit (.bool true) (tok .TRUE "TRUE")) c1Ex1 none)
        (execStmt c1Ex1 rootEnv) :=
  c1_if_executes_exactly_one_branch.1 (.lit (.bool true) (tok .TRUE "TRUE"))
    c1Ex1 none rootEnv (.bool true) rootEnv rfl rfl

/-- The docklett keyword table never yields DLINE. -/
theorem docklett_getD_ne_dline (s : String) :
    (docklettKeywordLookup s).getD .ILLEGAL ≠ .DLINE := by
  unfold docklettKeywordLookup
  repeat' split
  all_goals decide

/-- dockerLoop with enough fuel stops either at end of input or on a
newline rune: the raw-line scan never consumes a non-continuation
newline. -/
theorem dockerLoop_stop (n : Nat) (src : List Char) :
    ∀ cur line lastNS, src.length ≤ cur + n →
      src.length ≤ (dockerLoop n src cur line lastNS).1 ∨
        ∃ hh : (dockerLoop n src cur line lastNS).1 < src.length,
          src.get ⟨(dockerLoop n src cur line lastNS).1, hh⟩ = '\n' := by
  induction n with
  | zero =>
    intro cur line lastNS hle
    left
    simpa [dockerLoop] using hle
  | succ n ih =>
    intro cur line lastNS hle
    simp only [dockerLoop]
    split
    · rename_i h
      split
      · rename_i hnl
        split
        · exact ih (cur + 1) _ _ (by omega)
        · right
          exact ⟨h, hnl⟩
      · exact ih (cur + 1) _ _ (by omega)
    · left
      omega
/-- Whenever scanToken reports a DLINE token, the new current index is
either at end of input or on a newline rune: the raw Dockerfile line
stops before a non-continuation newline. -/
theorem scanToken_dline (src : List Char) (cur line : Nat) (dk : Bool)
    (tt : TokenType) (lit : Value) (err : Option ScanErr) (c2 l2 : Nat) (d2 : Bool)
    (hs : scanToken src cur line dk = ⟨tt, lit, err, c2, l2, d2⟩)
    (htt : tt = .DLINE) :
    src.length ≤ c2 ∨ ∃ hh : c2 < src.length, src.get ⟨c2, hh⟩ = '\n' := by
  unfold scanToken at hs
  generalize hcg : (src.get? cur).getD (Char.ofNat 0) = c at hs
  unfold scanTokenAux at hs
  by_cases hc1 : c = ' ' ∨ c = '\t' ∨ c = '\r'
  · rw [if_pos hc1] at hs
    cases hs
    exact absurd htt (by decide)
  rw [if_neg hc1] at hs
  by_cases hc2 : c = '\n'
  · rw [if_pos hc2] at hs
    cases hs
    exact absurd htt (by decide)
  rw [if_neg hc2] at hs
  by_cases hc3 : c = '='
  · rw [if_pos hc3] at hs
    unfold twoCharOp at hs
    cases hs
    split at htt <;> exact absurd htt (by decide)
  rw [if_neg hc3] at hs
  by_cases hc4 : c = '+'
  · rw [if_pos hc4] at hs
    unfold twoCharOp at hs
    cases hs
    split at htt <;> exact absurd htt (by decide)
  rw [if_neg hc4] at hs
  by_cases hc5 : c = '-'
  · rw [if_pos hc5] at hs
    unfold twoCharOp at hs
    cases hs
    split at htt <;> exact absurd htt (by decide)
  rw [if_neg hc5] at hs
  by_cases hc6 : c = '*'
  · rw [if_pos hc6] at hs
    unfold twoCharOp at hs
    cases hs
    split at htt <;> exact absurd htt (by decide)
  rw [if_neg hc6] at hs
  by_cases hc7 : c = '/'
  · rw [if_pos hc7] at hs
    unfold twoCharOp at hs
    cases hs
    split at htt <;> exact absurd htt (by decide)
  rw [if_neg hc7] at hs
  by_cases hc8 : c = '<'
  · rw [if_pos hc8] at hs
    unfold twoCharOp at hs
    cases hs
    split at htt <;> exact absurd htt (by decide)
  rw [if_neg hc8] at hs
  by_cases hc9 : c = '>'
  · rw [if_pos hc9] at hs
    unfold twoCharOp at hs
    cases hs
    split at htt <;> exact absurd htt (by decide)
  rw [if_neg hc9] at hs
  by_cases hc10 : c = '!'
  · rw [if_pos hc10] at hs
    unfold twoCharOp at hs
    cases hs
    split at htt <;> exact absurd htt (by decide)
  rw [if_neg hc10] at hs
  by_cases hc11 : c = '&'
  · rw [if_pos hc11] at hs
    split at hs <;> (cases hs; exact absurd htt (by decide))
  rw [if_neg hc11] at hs
  by_cases hc12 : c = '('
  · rw [if_pos hc12] at hs
    cases hs
    exact absurd htt (by decide)
  rw [if_neg hc12] at hs
  by_cases hc13 : c = ')'
  · rw [if_pos hc13] at hs
    cases hs
    exact absurd htt (by decide)
  rw [if_neg hc13] at hs
  by_cases hc14 : c = '{'
  · rw [if_pos hc14] at hs
    cases hs
    exact absurd htt (by decide)
  rw [if_neg hc14] at hs
  by_cases hc15 : c = '}'
  · rw [if_pos hc15] at hs
    cases hs
    exact absurd htt (by decide)
  rw [if_neg hc15] at hs
  by_cases hc16 : c = '['
  · rw [if_pos hc16] at hs
    cases hs
    exact absurd htt (by decide)
  rw [if_neg hc16] at hs
  by_cases hc17 : c = ']'
  · rw [if_pos hc17] at hs
    cases hs
    exact absurd htt (by decide)
  rw [if_neg hc17] at hs
  by_cases hc18 : c = ':'
  · rw [if_pos hc18] at hs
    cases hs
    exact absurd htt (by decide)
  rw [if_neg hc18] at hs
  by_cases hc19 : c = ','
  · rw [if_pos hc19] at hs
    cases hs
    exact absurd htt (by decide)
  rw [if_neg hc19] at hs
  by_cases hc20 : c = '#'
  · rw [if_pos hc20] at hs
    unfold scanComment at hs
    cases hs
    exact absurd htt (by decide)
  rw [if_neg hc20] at hs
  by_cases hc21 : c = '\"'
  · rw [if_pos hc21] at hs
    unfold scanStringToken at hs
    split at hs <;> (cases hs; exact absurd htt (by decide))
  rw [if_neg hc21] at hs
  by_cases hc22 : c = '@'
  · rw [if_pos hc22] at hs
    unfold scanDocklettToken at hs
    split at hs
    · cases hs
      exact absurd htt (docklett_getD_ne_dline _)
    · cases hs
      exact absurd htt (by decide)
  rw [if_neg hc22] at hs
  by_cases hc23 : c.isDigit = true
  · rw [if_pos hc23] at hs
    unfold scanNumberToken at hs
    cases hs
    exact absurd htt (by decide)
  rw [if_neg hc23] at hs
  by_cases hc24 : c.isAlpha = true
  · rw [if_pos hc24] at hs
    unfold scanKeywordsAndIdentifierTokens at hs
    split at hs
    · cases hs
      exact absurd htt (docklett_getD_ne_dline _)
    · split at hs
      · unfold scanDockerToken at hs
        cases hs
        exact dockerLoop_stop src.length src _ _ _ (by omega)
      · cases hs
        exact absurd htt (by decide)
  rw [if_neg hc24] at hs
  cases hs
  exact absurd htt (by decide)


/-- scanToken on a newline rune emits an NLINE step: advance one rune,
bump the line count, clear the docklett flag. -/
theorem scanToken_nline (src : List Char) (cur line : Nat) (dk : Bool)
    (h : cur < src.length) (hnl : src.get ⟨cur, h⟩ = '\n') :
    scanToken src cur line dk = ⟨.NLINE, .nil, none, cur + 1, line + 1, false⟩ := by
  unfold scanToken
  have hg : src.get? cur = some '\n' := by
    rw [List.get?_eq_get h, hnl]
  rw [hg]
  unfold scanTokenAux
  rw [if_neg (by decide), if_pos (by decide)]

/-- In a completed scan, every DLINE token is immediately followed by an
NLINE token or by the final EOF token. -/
theorem scanLoop_dline_adj (fuel : Nat) (src : List Char) (name : String) :
    ∀ cur line dk toks, scanLoop fuel src name cur line dk = .done toks →
      ∀ i t, toks.get? i = some t → t.type = .DLINE →
        ∃ t2, toks.get? (i + 1) = some t2 ∧ (t2.type = .NLINE ∨ t2.type = .EOF) := by
  induction fuel with
  | zero =>
    intro cur line dk toks h
    exact absurd h (by simp [scanLoop])
  | succ fuel ih =>
    intro cur line dk toks h i t hget htt
    simp only [scanLoop] at h
    by_cases hlt : cur < src.length
    · rw [if_pos hlt] at h
      rcases hs : scanToken src cur line dk with ⟨tt, lit, err, cur2, line2, dk2⟩
      rw [hs] at h
      dsimp only at h
      cases err with
      | some e => exact absurd h (by simp)
      | none =>
        by_cases hill : tt = .ILLEGAL
        · rw [if_pos hill] at h
          exact ih cur2 line2 dk2 toks h i t hget htt
        · rw [if_neg hill] at h
          cases hrec : scanLoop fuel src name cur2 line2 dk2 with
          | done toks2 =>
            rw [hrec] at h
            dsimp only at h
            injection h with h
            subst h
            cases i with
            | succ i =>
              rw [List.get?_cons_succ] at hget
              rw [List.get?_cons_succ]
              exact ih cur2 line2 dk2 toks2 hrec i t hget htt
            | zero =>
              rw [List.get?_cons_zero] at hget
              injection hget with hget
              subst hget
              have htt2 : tt = .DLINE := htt
              have hstop := scanToken_dline src cur line dk tt lit none cur2 line2 dk2 hs htt2
              rcases hstop with hend | ⟨hh, hnl⟩
              · cases fuel with
                | zero => exact absurd hrec (by simp [scanLoop])
                | succ f =>
                  simp only [scanLoop] at hrec
                  rw [if_neg (by omega)] at hrec
                  injection hrec with hrec
                  subst hrec
                  exact ⟨_, rfl, Or.inr rfl⟩
              · cases fuel with
                | zero => exact absurd hrec (by simp [scanLoop])
                | succ f =>
                  simp only [scanLoop] at hrec
                  rw [if_pos hh] at hrec
                  rw [scanToken_nline src cur2 line2 dk2 hh hnl] at hrec
                  dsimp only at hrec
                  rw [if_neg (by decide)] at hrec
                  cases hrec2 : scanLoop f src name (cur2 + 1) (line2 + 1) false with
                  | done ts =>
                    rw [hrec2] at hrec
                    dsimp only at hrec
                    injection hrec with hrec
                    subst hrec
                    exact ⟨_, rfl, Or.inl rfl⟩
                  | failed e sc ts =>
                    rw [hrec2] at hrec
                    exact absurd hrec (by simp)
                  | outOfFuel =>
                    rw [hrec2] at hrec
                    exact absurd hrec (by simp)
          | failed e sc ts =>
            rw [hrec] at h
            dsimp only at h
            exact absurd h (by simp)
          | outOfFuel =>
            rw [hrec] at h
            dsimp only at h
            exact absurd h (by simp)
    · rw [if_neg hlt] at h
      injection h with h
      subst h
      cases i with
      | zero =>
        rw [List.get?_cons_zero] at hget
        injection hget with hget
        subst hget
        exact TokenType.noConfusion htt
      | succ i =>
        rw [List.get?_cons_succ] at hget
        exact absurd hget (by simp)

/-- The token-type sequence of a successful scan. -/
def scanTypes (o : ScanOut) : Option (List TokenType) :=
  match o with
  | .done toks => some (toks.map Token.type)
  | _ => none

/-- The tokens of scanning the source FROM a newline. -/
def c9Toks : List Token :=
  [{ type := .DLINE, lexeme := "FROM a", line := 1, file := "f", col := 1, literal := .nil },
   { type := .NLINE, lexeme := "\n", line := 2, file := "f", col := 7, literal := .nil },
   { type := .EOF, lexeme := "", line := 2, file := "f", col := 8, literal := .nil }]

/-- C9: in every completed scan, a DLINE token (host-command raw line) is
immediately followed in the token sequence by an NLINE token or by the
final EOF token — the raw-line loop stops before a non-continuation
newline, which is then scanned as its own NLINE token.  Concretely: two
Docker lines separated by newlines scan to DLINE NLINE DLINE NLINE EOF,
and a backslash-continuation newline is consumed into a single DLINE
(the embedded ampersands raise no error) with the final non-continuation
newline still emitted as NLINE right after it. -/
theorem c9_dline_followed_by_nline :
    (∀ fuel src name cur line dk toks i t,
      scanLoop fuel src name cur line dk = .done toks →
      toks.get? i = some t → t.type = .DLINE →
      ∃ t2, toks.get? (i + 1) = some t2 ∧ (t2.type = .NLINE ∨ t2.type = .EOF)) ∧
    scanTypes (scanRun "FROM alpine\nRUN echo hi\n" "f") =
      some [.DLINE, .NLINE, .DLINE, .NLINE, .EOF] ∧
    scanTypes (scanRun "RUN echo a \\\n && echo b\n" "f") =
      some [.DLINE, .NLINE, .EOF] := by
  refine ⟨?_, by decide, by decide⟩
  intro fuel src name cur line dk toks i t h hget htt
  exact scanLoop_dline_adj fuel src name cur line dk toks h i t hget htt

/-- C9 witness: the adjacency statement applied to the concrete scan of
FROM a newline, whose DLINE token at index 0 is followed by the NLINE
token at index 1. -/
theorem c9_witness :
    scanLoop 8 "FROM a\n".data "f" 0 1 false = .done c9Toks ∧
    ∃ t2, c9Toks.get? (0 + 1) = some t2 ∧ (t2.type = .NLINE ∨ t2.type = .EOF) :=
  ⟨by decide,
   c9_dline_followed_by_nline.1 8 "FROM a\n".data "f" 0 1 false c9Toks 0
     { type := .DLINE, lexeme := "FROM a", line := 1, file := "f", col := 1, literal := .nil }
     (by decide) (by decide) (by decide)⟩

end Docklett
